import Mathlib

/-!
# SpdlogWrapper: a shallow embedding of `LogWrapper`

The class `LogWrapper` of `src/LogWrapper.h` / `src/LogWrapper.cpp` is embedded as a record of its
four data members and one Lean function per member function.  Everything the class does to the
outside world (constructing sinks and loggers, handing a record to a logger, shutting the spdlog
backend down, writing to stderr) is returned as a list of `Effect`s, in program order.

Conventions.
* A `std::chrono::steady_clock::time_point` is its count of nanoseconds (`Int`); the clock's
  duration type is `duration<int64, nano>`.  The template parameter `Duration` of
  `log_throttled` ranges over the integral duration types (`Duration` below); the comparison at
  LogWrapper.h:112 is computed as `std::chrono` does, in the common type of the two sides,
  with 64-bit arithmetic.  Signed overflow, undefined in C++, wraps around in two's
  complement.  Floating-point representations are not modelled.
* `std::unordered_map` is an association list read through `Map.find` and written through
  `Map.assign` (the `operator[]` assignment); only lookups are ever observed.
* A `std::shared_ptr<spdlog::logger>` is an `Option Logger`: `none` is the null pointer.
* The format string and its arguments of a log call are represented by the formatted text.
* Calls are sequential: each member function runs to completion on the state it is given.
-/

namespace SpdlogWrapper

/-! ## Data model -/

/-- The enumeration `spdlog::level::level_enum`. -/
inductive level_enum where
  | trace | debug | info | warn | err | critical | off
  deriving DecidableEq, Repr

/-- The struct `spdlog::source_loc`: file name, line (a C++ `int`) and function name. -/
structure source_loc where
  filename : String
  line : Int
  funcname : String
  deriving DecidableEq, Repr

/-- The struct `LogConfig` (LogWrapper.h:15-23) with its default member initialisers. -/
structure LogConfig where
  loggerName : String := "DefaultLogger"
  filePath : String := "logs/rlog.log"
  logLevel : level_enum := level_enum.trace
  maxFileSize : Nat := 1024 * 1024 * 50
  maxFiles : Nat := 5
  useAsync : Bool := true
  deriving DecidableEq, Repr

/-- The sinks the wrapper constructs, with the arguments it passes to their constructors. -/
inductive Sink where
  | stdout_color_sink_mt (level : level_enum)
  | rotating_file_sink_mt (path : String) (max_size max_files : Nat) (level : level_enum)
  | basic_file_sink_mt (path : String) (truncate : Bool)
  deriving DecidableEq, Repr

/-- A configured `spdlog::logger` (or `spdlog::async_logger` when `async` is set). -/
structure Logger where
  name : String
  sinks : List Sink
  level : level_enum
  flush_level : level_enum
  pattern : String
  async : Bool
  deriving DecidableEq, Repr

/-- The fields of `std::tm` that `log_ex` reads. -/
structure Tm where
  tm_sec : Int
  tm_min : Int
  tm_hour : Int
  tm_mday : Int
  tm_mon : Int
  tm_year : Int
  deriving DecidableEq, Repr

/-- The data members of `LogWrapper` (LogWrapper.h:55-62); the two mutexes carry no data. -/
structure LogWrapper where
  m_logger : Option Logger
  m_is_initialized : Bool
  m_throttle_map : List (String × Int)
  m_ex_loggers : List (String × Logger)
  deriving DecidableEq, Repr

/-- What a member function does to the world outside the object, in program order. -/
inductive Effect where
  | init_thread_pool (queue_size thread_count : Nat)
  | make_sink (s : Sink)
  | make_logger (l : Logger)
  | set_default_logger (l : Logger)
  | spdlog_shutdown
  | log (l : Logger) (loc : source_loc) (lvl : level_enum) (msg : String)
  | stderr (text : String)
  deriving DecidableEq, Repr

/-- How a call ends: it returns with a new object state, the process exits (`exit(1)` in
`init`), or it applies `->` to a null logger pointer (undefined behaviour). -/
inductive Outcome where
  | returned (s : LogWrapper) (out : List Effect)
  | exited (code : Nat) (out : List Effect)
  | null_deref (out : List Effect)
  deriving DecidableEq, Repr

/-- A default-constructed `LogWrapper` (`LogWrapper() = default`). -/
def LogWrapper.fresh : LogWrapper :=
  { m_logger := none, m_is_initialized := false, m_throttle_map := [], m_ex_loggers := [] }

/-! ## `std::unordered_map` -/

/-- The lookup `m.find(key)`: `none` stands for `m.end()`. -/
def Map.find {α : Type} (key : String) : List (String × α) → Option α
  | [] => none
  | (k, v) :: rest => if k = key then some v else Map.find key rest

/-- The assignment `m[key] = v`: overwrites the entry of `key`, or adds one. -/
def Map.assign {α : Type} (key : String) (v : α) : List (String × α) → List (String × α)
  | [] => [(key, v)]
  | (k, w) :: rest => if k = key then (k, v) :: rest else (k, w) :: Map.assign key v rest

/-! ## Number formatting -/

/-- Decimal digits of `n`, least significant first; `fuel` bounds the number of digits. -/
def digits_le : Nat → Nat → List Char
  | 0, _ => []
  | fuel + 1, n =>
    Nat.digitChar (n % 10) :: (if n / 10 = 0 then [] else digits_le fuel (n / 10))

/-- Decimal digits of `n`, most significant first (`0` is the single digit `0`). -/
def decimal (n : Nat) : List Char := (digits_le (n + 1) n).reverse

/-- The function `std::to_string(int)`: a minus sign for negative values, then the digits. -/
def to_string (n : Int) : String :=
  if n < 0 then ⟨'-' :: decimal n.natAbs⟩ else ⟨decimal n.natAbs⟩

/-- The fmt replacement field with spec `0Nd` (`04d`, `02d`): sign-aware zero padding to a
minimum width of `width` characters; longer numbers are not truncated. -/
def fmt_0d (width : Nat) (n : Int) : String :=
  if n < 0 then
    ⟨'-' :: (List.replicate (width - 1 - (decimal n.natAbs).length) '0' ++ decimal n.natAbs)⟩
  else
    ⟨List.replicate (width - (decimal n.natAbs).length) '0' ++ decimal n.natAbs⟩

/-! ## Member functions -/

/-- The pattern string passed to every `set_pattern` call. -/
def PATTERN : String := "[%Y-%m-%d %H:%M:%S.%f] [%^%l%$] [%t] [%s:%#] : %v"

/-- The logger `init` assembles from `config` (LogWrapper.cpp:24-47). -/
def default_logger (config : LogConfig) : Logger :=
  { name := config.loggerName
    sinks := [Sink.stdout_color_sink_mt config.logLevel,
              Sink.rotating_file_sink_mt config.filePath config.maxFileSize config.maxFiles
                config.logLevel]
    level := config.logLevel
    flush_level := config.logLevel
    pattern := PATTERN
    async := config.useAsync }

/-- The member function `LogWrapper::init` (LogWrapper.cpp:10-57).  `file_sink_error` is what the
constructor of the rotating file sink does: `none` when it succeeds, `some what` when it throws
`spdlog_ex` with that message. -/
def init (config : LogConfig) (file_sink_error : Option String) (s : LogWrapper) : Outcome :=
  if s.m_is_initialized then
    Outcome.returned s []
  else
    let pool := if config.useAsync then [Effect.init_thread_pool 8192 1] else []
    let console_sink := Sink.stdout_color_sink_mt config.logLevel
    match file_sink_error with
    | some what =>
      Outcome.exited 1
        (pool ++ [Effect.make_sink console_sink,
                  Effect.stderr ("Log initialization failed: " ++ what ++ "\n")])
    | none =>
      let rotating_file_sink :=
        Sink.rotating_file_sink_mt config.filePath config.maxFileSize config.maxFiles
          config.logLevel
      Outcome.returned
        { s with m_logger := some (default_logger config), m_is_initialized := true }
        (pool ++ [Effect.make_sink console_sink, Effect.make_sink rotating_file_sink,
                  Effect.make_logger (default_logger config),
                  Effect.set_default_logger (default_logger config)])

/-- The member function `LogWrapper::get_logger` (LogWrapper.cpp:59-66). -/
def get_logger (s : LogWrapper) : Option Logger :=
  if !s.m_is_initialized then none else s.m_logger

/-- The member function `LogWrapper::shutdown` (LogWrapper.h:42-49). -/
def shutdown (s : LogWrapper) : LogWrapper × List Effect :=
  if s.m_is_initialized then
    ({ s with m_is_initialized := false }, [Effect.spdlog_shutdown])
  else
    (s, [])

/-- The throttle key of a call site (LogWrapper.h:106). -/
def throttle_key (loc : source_loc) : String :=
  loc.filename ++ ":" ++ to_string loc.line

/-- Conversion to `int64_t`, two's complement. -/
def wrap_int64 (x : Int) : Int :=
  (x + 9223372036854775808) % 18446744073709551616 - 9223372036854775808

/-- Conversion to `uint64_t`. -/
def wrap_uint64 (x : Int) : Int := x % 18446744073709551616

/-- A value of an integral `std::chrono::duration<Rep, std::ratio<period_num, period_den>>`:
its `count()` and its period in seconds.  `rep_unsigned64` tells whether `Rep` is an unsigned
64-bit type, the one case in which `std::common_type` of `Rep` and the clock's `int64_t` is
unsigned; every other integral `Rep` converts to `int64_t` without change of value. -/
structure Duration where
  count : Int
  rep_unsigned64 : Bool
  period_num : Nat
  period_den : Nat
  deriving DecidableEq, Repr

/-- The duration `std::chrono::seconds(n)`. -/
def seconds (n : Int) : Duration :=
  { count := n, rep_unsigned64 := false, period_num := 1, period_den := 1 }

/-- The duration `std::chrono::nanoseconds(n)`. -/
def nanoseconds (n : Int) : Duration :=
  { count := n, rep_unsigned64 := false, period_num := 1, period_den := 1000000000 }

/-- Numerator of the period, in lowest terms (`Period::num`). -/
def Duration.num (d : Duration) : Nat := d.period_num / Nat.gcd d.period_num d.period_den

/-- Denominator of the period, in lowest terms (`Period::den`). -/
def Duration.den (d : Duration) : Nat := d.period_den / Nat.gcd d.period_num d.period_den

/-- Denominator of the period of the common type of `duration<int64, nano>` and `d`; its
numerator is `gcd(1, num) = 1`. -/
def Duration.common_den (d : Duration) : Nat := Nat.lcm 1000000000 d.den

/-- Conversion to the representation of the common type. -/
def Duration.cast (d : Duration) (x : Int) : Int :=
  if d.rep_unsigned64 then wrap_uint64 x else wrap_int64 x

/-- Factor of `duration_cast` from nanoseconds to the common type. -/
def Duration.lhs_factor (d : Duration) : Nat := d.common_den / 1000000000

/-- Factor of `duration_cast` from the period of `d` to the common type. -/
def Duration.rhs_factor (d : Duration) : Nat := d.num * (d.common_den / d.den)

/-- The comparison `elapsed >= interval` of `std::chrono`, for `elapsed` of the clock's
duration type: `!(CT(elapsed).count() < CT(interval).count())`, where `CT` is the common type
and each conversion multiplies the count by its factor in the representation of `CT`. -/
def duration_ge (elapsed : Int) (interval : Duration) : Bool :=
  !(decide (interval.cast (interval.cast elapsed * interval.lhs_factor) <
      interval.cast (interval.cast interval.count * interval.rhs_factor)))

/-- The condition of the `if` at LogWrapper.h:112, on the result of the `find`; the difference
`now - it->second` of two time points is an `int64_t` count of nanoseconds. -/
def throttle_passes (it : Option Int) (interval : Duration) (now : Int) : Bool :=
  match it with
  | none => true
  | some last => duration_ge (wrap_int64 (now - last)) interval

/-- The member function `LogWrapper::log_throttled` (LogWrapper.h:103-120); `now` is the value
read from the steady clock at line 107. -/
def log_throttled (interval : Duration) (loc : source_loc) (lvl : level_enum) (msg : String)
    (now : Int) (s : LogWrapper) : LogWrapper × List Effect :=
  let key := throttle_key loc
  let it := Map.find key s.m_throttle_map
  if throttle_passes it interval now then
    let s1 := { s with m_throttle_map := Map.assign key now s.m_throttle_map }
    match s.m_logger with
    | some l => (s1, [Effect.log l loc lvl msg])
    | none => (s1, [])
  else
    (s, [])

/-- The string `file_date` of LogWrapper.h:151-152. -/
def file_date (tm : Tm) : String :=
  "_" ++ fmt_0d 4 (tm.tm_year + 1900) ++ "-" ++ fmt_0d 2 (tm.tm_mon + 1) ++ "-" ++
    fmt_0d 2 tm.tm_mday ++ "_" ++ fmt_0d 2 tm.tm_hour ++ "_" ++ fmt_0d 2 tm.tm_min ++ "_" ++
    fmt_0d 2 tm.tm_sec

/-- The string `file_path` of LogWrapper.h:153. -/
def file_path (key : String) (tm : Tm) : String :=
  "logs/extra/" ++ key ++ file_date tm ++ ".log"

/-- The logger `log_ex` builds for an unbound key (LogWrapper.h:154-158): a synchronous
`spdlog::logger` over one truncating `basic_file_sink_mt`, level `trace`; `flush_level` keeps
the constructor default `off`. -/
def extra_logger (key : String) (tm : Tm) : Logger :=
  { name := key
    sinks := [Sink.basic_file_sink_mt (file_path key tm) true]
    level := level_enum.trace
    flush_level := level_enum.off
    pattern := PATTERN
    async := false }

/-- The source location the macro `LOG_ERROR` at LogWrapper.h:164 captures (`__FILE__` is
written without its directory). -/
def LOG_ERROR_loc : source_loc :=
  { filename := "LogWrapper.h", line := 164, funcname := "log_ex" }

/-- The macro call `LOG_ERROR(...)` at LogWrapper.h:164.  `LOG_ERROR` is
`SPDLOG_LOGGER_CALL(LogWrapper::instance().get_logger(), spdlog::level::err, ...)`, and spdlog
defines `SPDLOG_LOGGER_CALL(logger, level, ...)` as `(logger)->log(source_loc, level, ...)`:
the pointer returned by `get_logger` is dereferenced without a null test. -/
def LOG_ERROR (msg : String) (s : LogWrapper) : Outcome :=
  match get_logger s with
  | some l => Outcome.returned s [Effect.log l LOG_ERROR_loc level_enum.err msg]
  | none => Outcome.null_deref []

/-- The member function `LogWrapper::log_ex` (LogWrapper.h:122-174).  `tm` is the local time
read at lines 148-150, `file_sink_error` is what the constructor of the file sink does (`none`:
it succeeds, `some what`: it throws `spdlog_ex` with that message); both are consulted only on
the creation path. -/
def log_ex (key : String) (loc : source_loc) (lvl : level_enum) (msg : String)
    (tm : Tm) (file_sink_error : Option String) (s : LogWrapper) : Outcome :=
  -- lines 127-134: first lookup
  match Map.find key s.m_ex_loggers with
  | some ex_logger => Outcome.returned s [Effect.log ex_logger loc lvl msg]
  | none =>
    -- lines 138-143: second lookup, under the lock again
    match Map.find key s.m_ex_loggers with
    | some ex_logger => Outcome.returned s [Effect.log ex_logger loc lvl msg]
    | none =>
      match file_sink_error with
      | none =>
        let ex_logger := extra_logger key tm
        Outcome.returned
          { s with m_ex_loggers := Map.assign key ex_logger s.m_ex_loggers }
          [Effect.make_sink (Sink.basic_file_sink_mt (file_path key tm) true),
           Effect.make_logger ex_logger,
           Effect.log ex_logger loc lvl msg]
      | some what =>
        LOG_ERROR ("Failed to create extra logger for key \x27" ++ key ++ "\x27: " ++ what) s


/-! ## Reference definitions, written from the specification -/

/-- The duration `d`, taken as the exact quantity `count * period_num / period_den` seconds,
is at most `elapsed` nanoseconds. -/
def Duration.le_elapsed (d : Duration) (elapsed : Int) : Prop :=
  d.count * d.period_num * 1000000000 ≤ elapsed * d.period_den

instance (d : Duration) (elapsed : Int) : Decidable (d.le_elapsed elapsed) := by
  unfold Duration.le_elapsed; infer_instance

/-- The reference operation `should_emit(site_key, interval, now)` of the Throttle Tracker, in
the words of the specification: look the key up; if it is absent, or if
`now - last_recorded_time >= interval`, record `now` and answer true; otherwise answer false
and leave the state alone.  The comparison is the one of exact quantities. -/
def should_emit (state : List (String × Int)) (site_key : String) (interval : Duration)
    (now : Int) : Bool × List (String × Int) :=
  match Map.find site_key state with
  | none => (true, Map.assign site_key now state)
  | some last_recorded_time =>
    if interval.le_elapsed (now - last_recorded_time) then
      (true, Map.assign site_key now state)
    else (false, state)

/-- The value `x` is representable in the type in which `d` is compared with the clock's
duration. -/
def Duration.rep_holds (d : Duration) (x : Int) : Prop :=
  if d.rep_unsigned64 then 0 ≤ x ∧ x < 18446744073709551616
  else -9223372036854775808 ≤ x ∧ x < 9223372036854775808

instance (d : Duration) (x : Int) : Decidable (d.rep_holds x) := by
  unfold Duration.rep_holds; infer_instance

/-- The comparison of `elapsed` nanoseconds with the duration `d` at LogWrapper.h:112 involves
no overflow: the period of `d` is positive, `elapsed` is an `int64_t`, and `elapsed`, the count
of `d` and their two conversions to the common type are representable in its representation. -/
def comparison_exact (elapsed : Int) (d : Duration) : Prop :=
  0 < d.period_num ∧ 0 < d.period_den ∧
  -9223372036854775808 ≤ elapsed ∧ elapsed < 9223372036854775808 ∧
  d.rep_holds elapsed ∧ d.rep_holds (elapsed * d.lhs_factor) ∧
  d.rep_holds d.count ∧ d.rep_holds (d.count * d.rhs_factor)

instance (elapsed : Int) (d : Duration) : Decidable (comparison_exact elapsed d) := by
  unfold comparison_exact; infer_instance

/-- Broken-down calendar time of the instant `t` seconds after 1970-01-01 00:00:00, in the
Gregorian calendar (days are counted from 0000-03-01 in cycles of 400 years). -/
def broken_down (t : Int) : Tm :=
  let days := t / 86400
  let rem := t % 86400
  let z := days + 719468
  let era := z / 146097
  let doe := z - era * 146097
  let yoe := (doe - doe / 1460 + doe / 36524 - doe / 146096) / 365
  let doy := doe - (365 * yoe + yoe / 4 - yoe / 100)
  let mp := (5 * doy + 2) / 153
  let d := doy - (153 * mp + 2) / 5 + 1
  let m := if mp < 10 then mp + 3 else mp - 9
  let y := yoe + era * 400 + (if m ≤ 2 then 1 else 0)
  { tm_sec := rem % 60, tm_min := rem / 60 % 60, tm_hour := rem / 3600,
    tm_mday := d, tm_mon := m - 1, tm_year := y - 1900 }

/-- The function `std::localtime` in the time zone `Europe/Berlin`, for a `time_t` between
the start of summer time 2024 (31 March 2024 01:00:00 UTC) and the start of summer time 2025:
local time is UTC+2 before 27 October 2024 01:00:00 UTC (`time_t` 1729990800) and UTC+1 from
then on. -/
def localtime_berlin (time : Int) : Tm :=
  if time < 1729990800 then broken_down (time + 7200) else broken_down (time + 3600)

/-- A number written in decimal and padded with zeros on the left to `width` digits, in the
words of the specification (`YYYY`, `MM`, `DD`, ...). -/
def zero_padded (width : Nat) (n : Nat) : String :=
  ⟨List.replicate (width - (decimal n).length) '0' ++ decimal n⟩

/-- The ranges of a broken-down local time (C standard, `struct tm`), for a calendar year that
is not negative. -/
def Tm.in_range (tm : Tm) : Prop :=
  0 ≤ tm.tm_sec ∧ tm.tm_sec ≤ 60 ∧ 0 ≤ tm.tm_min ∧ tm.tm_min ≤ 59 ∧
  0 ≤ tm.tm_hour ∧ tm.tm_hour ≤ 23 ∧ 1 ≤ tm.tm_mday ∧ tm.tm_mday ≤ 31 ∧
  0 ≤ tm.tm_mon ∧ tm.tm_mon ≤ 11 ∧ 0 ≤ tm.tm_year + 1900

instance (tm : Tm) : Decidable tm.in_range := by
  unfold Tm.in_range; infer_instance

/-! ## Sequences of calls -/

/-- One call on the facade, with the values it reads from its environment. -/
inductive Op where
  | init (config : LogConfig) (file_sink_error : Option String)
  | log_throttled (interval : Duration) (loc : source_loc) (lvl : level_enum) (msg : String)
      (now : Int)
  | log_ex (key : String) (loc : source_loc) (lvl : level_enum) (msg : String) (tm : Tm)
      (file_sink_error : Option String)
  | shutdown

/-- Run one call. -/
def step (s : LogWrapper) : Op → Outcome
  | Op.init config e => init config e s
  | Op.log_throttled interval loc lvl msg now =>
    Outcome.returned (log_throttled interval loc lvl msg now s).1
      (log_throttled interval loc lvl msg now s).2
  | Op.log_ex key loc lvl msg tm e => log_ex key loc lvl msg tm e s
  | Op.shutdown => Outcome.returned (shutdown s).1 (shutdown s).2

/-- Run a sequence of calls, one after the other; a call that does not return ends the run,
and the effects of all calls made are collected in order. -/
def run (s : LogWrapper) : List Op → Outcome
  | [] => Outcome.returned s []
  | op :: ops =>
    match step s op with
    | Outcome.returned s1 out1 =>
      match run s1 ops with
      | Outcome.returned s2 out2 => Outcome.returned s2 (out1 ++ out2)
      | Outcome.exited code out2 => Outcome.exited code (out1 ++ out2)
      | Outcome.null_deref out2 => Outcome.null_deref (out1 ++ out2)
    | stopped => stopped

/-- Value of a little-endian list of decimal digit characters. -/
def value_le : List Char → Nat
  | [] => 0
  | c :: cs => (c.toNat - 48) + 10 * value_le cs

/-- A local time for the examples: 2024-01-02 03:04:05. -/
def example_tm : Tm :=
  { tm_sec := 5, tm_min := 4, tm_hour := 3, tm_mday := 2, tm_mon := 0, tm_year := 124 }

/-- The facade of `main.cpp` after `init` with the default configuration and the first
`LOG_EX_INFO("module_A_debug", ...)`. -/
def example_running : LogWrapper :=
  { m_logger := some (default_logger ({} : LogConfig))
    m_is_initialized := true
    m_throttle_map := []
    m_ex_loggers := [("module_A_debug", extra_logger "module_A_debug" example_tm)] }

/-- A formatted integer field: a nonempty run of decimal digits, possibly after a minus sign. -/
def IsField (l : List Char) : Prop :=
  ∃ ds : List Char, ds ≠ [] ∧ (∀ c ∈ ds, c.isDigit = true) ∧ (l = ds ∨ l = '-' :: ds)

/-! ## Lemmas on the map operations -/

theorem Map.find_assign_self {α : Type} (key : String) (v : α) (m : List (String × α)) :
    Map.find key (Map.assign key v m) = some v := by
  induction m with
  | nil => simp [Map.assign, Map.find]
  | cons e rest ih =>
    obtain ⟨k, w⟩ := e
    by_cases hk : k = key
    · simp [Map.assign, Map.find, hk]
    · simp [Map.assign, Map.find, hk, ih]

theorem Map.find_assign_of_ne {α : Type} {key other : String} (h : other ≠ key) (v : α)
    (m : List (String × α)) : Map.find other (Map.assign key v m) = Map.find other m := by
  induction m with
  | nil =>
    have h2 : ¬ key = other := fun e => h e.symm
    simp [Map.assign, Map.find, h2]
  | cons e rest ih =>
    obtain ⟨k, w⟩ := e
    by_cases hk : k = key
    · subst hk
      have h2 : ¬ k = other := fun e => h e.symm
      simp [Map.assign, Map.find, h2]
    · by_cases ho : k = other
      · subst ho
        simp [Map.assign, Map.find, hk]
      · simp [Map.assign, Map.find, hk, ho, ih]

/-! ## Lemmas on number formatting -/

theorem digitChar_isDigit {d : Nat} (h : d < 10) : (Nat.digitChar d).isDigit = true := by
  interval_cases d <;> decide

theorem digitChar_value {d : Nat} (h : d < 10) : (Nat.digitChar d).toNat - 48 = d := by
  interval_cases d <;> decide

theorem digits_le_isDigit : ∀ (fuel n : Nat) (c : Char), c ∈ digits_le fuel n →
    c.isDigit = true := by
  intro fuel
  induction fuel with
  | zero => intro n c hc; simp [digits_le] at hc
  | succ f ih =>
    intro n c hc
    simp only [digits_le, List.mem_cons] at hc
    rcases hc with hc | hc
    · subst hc
      exact digitChar_isDigit (Nat.mod_lt _ (by decide))
    · by_cases h0 : n / 10 = 0
      · simp [h0] at hc
      · rw [if_neg h0] at hc
        exact ih _ _ hc

theorem value_le_digits_le : ∀ (fuel n : Nat), n < fuel → value_le (digits_le fuel n) = n := by
  intro fuel
  induction fuel with
  | zero => intro n h; omega
  | succ f ih =>
    intro n h
    simp only [digits_le, value_le]
    rw [digitChar_value (Nat.mod_lt _ (by decide))]
    by_cases h0 : n / 10 = 0
    · rw [if_pos h0]
      simp only [value_le]
      omega
    · rw [if_neg h0, ih (n / 10) (by omega)]
      omega

theorem digits_le_length : ∀ (fuel e n : Nat), n < 10 ^ (e + 1) →
    (digits_le fuel n).length ≤ e + 1 := by
  intro fuel
  induction fuel with
  | zero => intro e n _; simp [digits_le]
  | succ f ih =>
    intro e n h
    simp only [digits_le, List.length_cons]
    by_cases h0 : n / 10 = 0
    · simp [h0]
    · rw [if_neg h0]
      cases e with
      | zero => omega
      | succ e2 =>
        have h2 : n / 10 < 10 ^ (e2 + 1) := by
          rw [Nat.div_lt_iff_lt_mul (by decide)]
          calc n < 10 ^ (e2 + 1 + 1) := h
            _ = 10 ^ (e2 + 1) * 10 := by ring
        have := ih e2 (n / 10) h2
        omega

theorem decimal_ne_nil (n : Nat) : decimal n ≠ [] := by
  simp [decimal, digits_le]

theorem decimal_isDigit (n : Nat) (c : Char) (h : c ∈ decimal n) : c.isDigit = true := by
  unfold decimal at h
  rw [List.mem_reverse] at h
  exact digits_le_isDigit _ _ _ h

theorem value_le_reverse_decimal (n : Nat) : value_le (decimal n).reverse = n := by
  unfold decimal
  rw [List.reverse_reverse]
  exact value_le_digits_le _ _ (Nat.lt_succ_self n)

theorem decimal_injective {a b : Nat} (h : decimal a = decimal b) : a = b := by
  rw [← value_le_reverse_decimal a, ← value_le_reverse_decimal b, h]

theorem decimal_length {e n : Nat} (h : n < 10 ^ (e + 1)) : (decimal n).length ≤ e + 1 := by
  unfold decimal
  rw [List.length_reverse]
  exact digits_le_length _ _ _ h

theorem head_not_digit_of_decimal {c : Char} {l : List Char} {n : Nat}
    (hc : c.isDigit = false) (h : c :: l = decimal n) : False := by
  have hm : c ∈ decimal n := by rw [← h]; exact List.mem_cons_self _ _
  have := decimal_isDigit n c hm
  rw [hc] at this
  exact Bool.noConfusion this

theorem to_string_data (n : Int) :
    (0 ≤ n ∧ (to_string n).data = decimal n.natAbs) ∨
    (n < 0 ∧ (to_string n).data = '-' :: decimal n.natAbs) := by
  unfold to_string
  by_cases h : n < 0
  · right; simp [h]
  · left; simp [h]; omega

theorem to_string_no_colon (n : Int) : ':' ∉ (to_string n).data := by
  intro hmem
  rcases to_string_data n with ⟨_, h⟩ | ⟨_, h⟩
  · rw [h] at hmem
    have := decimal_isDigit _ _ hmem
    exact absurd this (by decide)
  · rw [h, List.mem_cons] at hmem
    rcases hmem with hmem | hmem
    · exact absurd hmem (by decide)
    · have := decimal_isDigit _ _ hmem
      exact absurd this (by decide)

theorem to_string_injective {a b : Int} (h : to_string a = to_string b) : a = b := by
  have hd : (to_string a).data = (to_string b).data := by rw [h]
  rcases to_string_data a with ⟨ha, ea⟩ | ⟨ha, ea⟩ <;>
    rcases to_string_data b with ⟨hb, eb⟩ | ⟨hb, eb⟩ <;> rw [ea, eb] at hd
  · have := decimal_injective hd
    omega
  · exact (head_not_digit_of_decimal (by decide) hd.symm).elim
  · exact (head_not_digit_of_decimal (by decide) hd).elim
  · have := decimal_injective (List.cons_injective hd)
    omega

/-- Two lists that agree after being cut at the last occurrence of a separator have equal
parts. -/
theorem split_last {c : Char} : ∀ (l1 l2 r1 r2 : List Char), c ∉ r1 → c ∉ r2 →
    l1 ++ c :: r1 = l2 ++ c :: r2 → l1 = l2 ∧ r1 = r2 := by
  intro l1
  induction l1 with
  | nil =>
    intro l2 r1 r2 h1 h2 h
    cases l2 with
    | nil => simpa using h
    | cons y l2 =>
      simp only [List.nil_append, List.cons_append, List.cons.injEq] at h
      exact absurd (by rw [h.2]; simp) h1
  | cons x l1 ih =>
    intro l2 r1 r2 h1 h2 h
    cases l2 with
    | nil =>
      simp only [List.nil_append, List.cons_append, List.cons.injEq] at h
      exact absurd (by rw [← h.2]; simp) h2
    | cons y l2 =>
      simp only [List.cons_append, List.cons.injEq] at h
      obtain ⟨e1, e2⟩ := ih l2 r1 r2 h1 h2 h.2
      exact ⟨by rw [h.1, e1], e2⟩

theorem throttle_key_data (loc : source_loc) :
    (throttle_key loc).data = loc.filename.data ++ ':' :: (to_string loc.line).data := by
  simp [throttle_key, String.data_append]

theorem throttle_key_injective {loc1 loc2 : source_loc}
    (h : throttle_key loc1 = throttle_key loc2) :
    loc1.filename = loc2.filename ∧ loc1.line = loc2.line := by
  have hd : (throttle_key loc1).data = (throttle_key loc2).data := by rw [h]
  rw [throttle_key_data, throttle_key_data] at hd
  obtain ⟨e1, e2⟩ := split_last _ _ _ _ (to_string_no_colon _) (to_string_no_colon _) hd
  exact ⟨String.ext e1, to_string_injective (String.ext e2)⟩

/-- Two lists that agree after being cut at the first element outside a class of characters
have equal parts. -/
theorem split_first (P : Char → Prop) {c1 c2 : Char} (hc1 : ¬ P c1) (hc2 : ¬ P c2) :
    ∀ (l1 l2 r1 r2 : List Char), (∀ x ∈ l1, P x) → (∀ x ∈ l2, P x) →
    l1 ++ c1 :: r1 = l2 ++ c2 :: r2 → l1 = l2 ∧ r1 = r2 := by
  intro l1
  induction l1 with
  | nil =>
    intro l2 r1 r2 h1 h2 h
    cases l2 with
    | nil => simp only [List.nil_append, List.cons.injEq] at h; exact ⟨rfl, h.2⟩
    | cons y l2 =>
      simp only [List.nil_append, List.cons_append, List.cons.injEq] at h
      exact absurd (h.1 ▸ h2 y (List.mem_cons_self _ _)) hc1
  | cons x l1 ih =>
    intro l2 r1 r2 h1 h2 h
    cases l2 with
    | nil =>
      simp only [List.nil_append, List.cons_append, List.cons.injEq] at h
      exact absurd (h.1 ▸ h1 x (List.mem_cons_self _ _)) hc2
    | cons y l2 =>
      simp only [List.cons_append, List.cons.injEq] at h
      obtain ⟨e1, e2⟩ := ih l2 r1 r2 (fun z hz => h1 z (List.mem_cons_of_mem _ hz))
        (fun z hz => h2 z (List.mem_cons_of_mem _ hz)) h.2
      exact ⟨by rw [h.1, e1], e2⟩

theorem value_le_append_zeros (l : List Char) (k : Nat) :
    value_le (l ++ List.replicate k '0') = value_le l := by
  induction l with
  | nil =>
    induction k with
    | zero => rfl
    | succ k ih =>
      simp only [List.nil_append, List.replicate_succ, value_le] at ih ⊢
      rw [ih]; decide
  | cons c l ih => simp only [List.cons_append, value_le, List.append_eq, ih]

theorem padded_value (k n : Nat) :
    value_le (List.replicate k '0' ++ decimal n).reverse = n := by
  rw [List.reverse_append, List.reverse_replicate, value_le_append_zeros,
    value_le_reverse_decimal]

theorem padded_isDigit (k n : Nat) (c : Char) (h : c ∈ List.replicate k '0' ++ decimal n) :
    c.isDigit = true := by
  rw [List.mem_append] at h
  rcases h with h | h
  · rw [(List.mem_replicate.mp h).2]; decide
  · exact decimal_isDigit n c h

theorem padded_ne_nil (k n : Nat) : List.replicate k '0' ++ decimal n ≠ [] := by
  intro h
  exact decimal_ne_nil n (List.append_eq_nil.mp h).2

theorem fmt_0d_data (w : Nat) (n : Int) :
    (0 ≤ n ∧ (fmt_0d w n).data =
        List.replicate (w - (decimal n.natAbs).length) '0' ++ decimal n.natAbs) ∨
    (n < 0 ∧ (fmt_0d w n).data =
        '-' :: (List.replicate (w - 1 - (decimal n.natAbs).length) '0' ++ decimal n.natAbs)) := by
  unfold fmt_0d
  by_cases h : n < 0
  · right; simp [h]
  · left; simp [h]; omega

theorem fmt_0d_isField (w : Nat) (n : Int) : IsField (fmt_0d w n).data := by
  rcases fmt_0d_data w n with ⟨_, h⟩ | ⟨_, h⟩
  · exact ⟨_, padded_ne_nil _ _, padded_isDigit _ _, Or.inl h⟩
  · exact ⟨_, padded_ne_nil _ _, padded_isDigit _ _, Or.inr h⟩

theorem fmt_0d_injective {w1 w2 : Nat} {a b : Int}
    (h : (fmt_0d w1 a).data = (fmt_0d w2 b).data) : a = b := by
  rcases fmt_0d_data w1 a with ⟨ha, ea⟩ | ⟨ha, ea⟩ <;>
    rcases fmt_0d_data w2 b with ⟨hb, eb⟩ | ⟨hb, eb⟩ <;> rw [ea, eb] at h
  · have := congrArg (fun l => value_le l.reverse) h
    simp only [padded_value] at this
    omega
  · have hm : '-' ∈ List.replicate (w1 - (decimal a.natAbs).length) '0' ++ decimal a.natAbs := by
      rw [h]; exact List.mem_cons_self _ _
    exact absurd (padded_isDigit _ _ _ hm) (by decide)
  · have hm : '-' ∈ List.replicate (w2 - (decimal b.natAbs).length) '0' ++ decimal b.natAbs := by
      rw [← h]; exact List.mem_cons_self _ _
    exact absurd (padded_isDigit _ _ _ hm) (by decide)
  · have := congrArg (fun l => value_le l.reverse) (List.cons_injective h)
    simp only [padded_value] at this
    omega

/-- Two fields, each followed by a character that is not a digit, are cut in one way only. -/
theorem field_split {f1 f2 r1 r2 : List Char} {c1 c2 : Char} (h1 : IsField f1)
    (h2 : IsField f2) (hc1 : c1.isDigit = false) (hc2 : c2.isDigit = false)
    (h : f1 ++ c1 :: r1 = f2 ++ c2 :: r2) : f1 = f2 ∧ r1 = r2 := by
  have n1 : ¬ c1.isDigit = true := by simp [hc1]
  have n2 : ¬ c2.isDigit = true := by simp [hc2]
  obtain ⟨d1, hd1, hp1, e1⟩ := h1
  obtain ⟨d2, hd2, hp2, e2⟩ := h2
  rcases e1 with e1 | e1 <;> rcases e2 with e2 | e2 <;> rw [e1, e2] at h ⊢
  · exact split_first (fun c => c.isDigit = true) n1 n2 _ _ _ _ hp1 hp2 h
  · cases d1 with
    | nil => exact absurd rfl hd1
    | cons x d1 =>
      simp only [List.cons_append, List.cons.injEq] at h
      exact absurd (h.1 ▸ hp1 x (List.mem_cons_self _ _)) (by decide)
  · cases d2 with
    | nil => exact absurd rfl hd2
    | cons x d2 =>
      simp only [List.cons_append, List.cons.injEq] at h
      exact absurd (h.1 ▸ hp2 x (List.mem_cons_self _ _)) (by decide)
  · simp only [List.cons_append, List.cons.injEq, true_and] at h
    obtain ⟨e3, e4⟩ := split_first (fun c => c.isDigit = true) n1 n2 _ _ _ _ hp1 hp2 h
    exact ⟨by rw [e3], e4⟩

theorem field_count_underscore {f : List Char} (h : IsField f) : List.count '_' f = 0 := by
  obtain ⟨d, _, hp, e⟩ := h
  have hd : '_' ∉ d := fun hm => absurd (hp _ hm) (by decide)
  rcases e with e | e <;> rw [e]
  · exact List.count_eq_zero.mpr hd
  · rw [List.count_cons, List.count_eq_zero.mpr hd]; decide

theorem file_date_data (tm : Tm) :
    (file_date tm).data =
      '_' :: ((fmt_0d 4 (tm.tm_year + 1900)).data ++ '-' :: ((fmt_0d 2 (tm.tm_mon + 1)).data ++
        '-' :: ((fmt_0d 2 tm.tm_mday).data ++ '_' :: ((fmt_0d 2 tm.tm_hour).data ++
          '_' :: ((fmt_0d 2 tm.tm_min).data ++ '_' :: (fmt_0d 2 tm.tm_sec).data))))) := by
  simp [file_date, String.data_append]

theorem file_date_count (tm : Tm) : List.count '_' (file_date tm).data = 4 := by
  rw [file_date_data]
  simp [List.count_cons, List.count_append, field_count_underscore (fmt_0d_isField _ _)]

theorem file_date_injective {tm1 tm2 : Tm} (h : (file_date tm1).data = (file_date tm2).data) :
    tm1 = tm2 := by
  rw [file_date_data, file_date_data] at h
  have h0 := List.cons_injective h
  obtain ⟨e1, h1⟩ := field_split (fmt_0d_isField _ _) (fmt_0d_isField _ _) (by decide)
    (by decide) h0
  obtain ⟨e2, h2⟩ := field_split (fmt_0d_isField _ _) (fmt_0d_isField _ _) (by decide)
    (by decide) h1
  obtain ⟨e3, h3⟩ := field_split (fmt_0d_isField _ _) (fmt_0d_isField _ _) (by decide)
    (by decide) h2
  obtain ⟨e4, h4⟩ := field_split (fmt_0d_isField _ _) (fmt_0d_isField _ _) (by decide)
    (by decide) h3
  obtain ⟨e5, e6⟩ := field_split (fmt_0d_isField _ _) (fmt_0d_isField _ _) (by decide)
    (by decide) h4
  have y := fmt_0d_injective e1
  have mo := fmt_0d_injective e2
  have d := fmt_0d_injective e3
  have hh := fmt_0d_injective e4
  have mi := fmt_0d_injective e5
  have se := fmt_0d_injective e6
  obtain ⟨a1, a2, a3, a4, a5, a6⟩ := tm1
  obtain ⟨b1, b2, b3, b4, b5, b6⟩ := tm2
  simp only at y mo d hh mi se
  simp only [Tm.mk.injEq]
  omega

/-- A key followed by a date suffix is cut in one way only: the suffix starts with an
underscore and holds exactly four of them. -/
theorem key_date_split {k1 k2 d1 d2 : List Char} (c1 : List.count '_' d1 = 4)
    (c2 : List.count '_' d2 = 4) (s1 : ∃ r, d1 = '_' :: r) (s2 : ∃ r, d2 = '_' :: r)
    (h : k1 ++ d1 = k2 ++ d2) : k1 = k2 ∧ d1 = d2 := by
  rcases List.append_eq_append_iff.mp h with ⟨u, hk, hd⟩ | ⟨u, hk, hd⟩
  · cases u with
    | nil => simp only [List.append_nil, List.nil_append] at hk hd; exact ⟨hk.symm, hd⟩
    | cons x u =>
      obtain ⟨r, hr⟩ := s1
      rw [hd, List.count_append, c2] at c1
      rw [hr] at hd
      simp only [List.cons_append, List.cons.injEq] at hd
      rw [← hd.1] at c1
      simp [List.count_cons] at c1
  · cases u with
    | nil => simp only [List.append_nil, List.nil_append] at hk hd; exact ⟨hk, hd.symm⟩
    | cons x u =>
      obtain ⟨r, hr⟩ := s2
      rw [hd, List.count_append, c1] at c2
      rw [hr] at hd
      simp only [List.cons_append, List.cons.injEq] at hd
      rw [← hd.1] at c2
      simp [List.count_cons] at c2

theorem file_path_data (key : String) (tm : Tm) :
    (file_path key tm).data =
      "logs/extra/".data ++ ((key.data ++ (file_date tm).data) ++ ".log".data) := by
  simp [file_path, String.data_append]

theorem file_path_injective {key1 key2 : String} {tm1 tm2 : Tm}
    (h : file_path key1 tm1 = file_path key2 tm2) : key1 = key2 ∧ tm1 = tm2 := by
  have hd : (file_path key1 tm1).data = (file_path key2 tm2).data := by rw [h]
  rw [file_path_data, file_path_data] at hd
  have h1 := List.append_cancel_right (List.append_cancel_left hd)
  obtain ⟨e1, e2⟩ := key_date_split (file_date_count tm1) (file_date_count tm2)
    ⟨_, file_date_data tm1⟩ ⟨_, file_date_data tm2⟩ h1
  exact ⟨String.ext e1, file_date_injective e2⟩

theorem fmt_0d_eq_zero_padded (w : Nat) {n : Int} (h : 0 ≤ n) :
    fmt_0d w n = zero_padded w n.toNat := by
  have h1 : ¬ n < 0 := by omega
  have h2 : n.natAbs = n.toNat := by omega
  simp [fmt_0d, zero_padded, h1, h2]

theorem zero_padded_length_ge (w n : Nat) : w ≤ (zero_padded w n).length := by
  simp only [zero_padded, String.length, List.length_append, List.length_replicate]
  omega

theorem zero_padded_length {e n : Nat} (h : n < 10 ^ (e + 1)) :
    (zero_padded (e + 1) n).length = e + 1 := by
  have := decimal_length h
  simp only [zero_padded, String.length, List.length_append, List.length_replicate]
  omega

/-! ## Lemmas on the comparison of durations -/

theorem Duration.cast_of_rep_holds (d : Duration) (x : Int) (h : d.rep_holds x) :
    d.cast x = x := by
  unfold Duration.rep_holds at h
  unfold Duration.cast wrap_uint64 wrap_int64
  cases hu : d.rep_unsigned64 <;> simp [hu] at h ⊢ <;> omega

theorem wrap_int64_of_range (x : Int) (h1 : -9223372036854775808 ≤ x)
    (h2 : x < 9223372036854775808) : wrap_int64 x = x := by
  unfold wrap_int64
  omega

theorem Duration.factors (d : Duration) (hn : 0 < d.period_num) (hd : 0 < d.period_den) :
    0 < d.common_den ∧
    d.lhs_factor * 1000000000 = d.common_den ∧
    d.rhs_factor * d.period_den = d.period_num * d.common_den := by
  have hg : 0 < Nat.gcd d.period_num d.period_den := Nat.gcd_pos_of_pos_left _ hn
  have hden : 0 < d.den := Nat.div_pos (Nat.le_of_dvd hd (Nat.gcd_dvd_right _ _)) hg
  have hL : 0 < d.common_den := Nat.lcm_pos (by decide) hden
  have h1 : (1000000000 : Nat) ∣ d.common_den := Nat.dvd_lcm_left _ _
  have h2 : d.den ∣ d.common_den := Nat.dvd_lcm_right _ _
  refine ⟨hL, Nat.div_mul_cancel h1, ?_⟩
  unfold Duration.rhs_factor
  have e2 : d.common_den / d.den * d.den = d.common_den := Nat.div_mul_cancel h2
  have e3 : d.num * Nat.gcd d.period_num d.period_den = d.period_num :=
    Nat.div_mul_cancel (Nat.gcd_dvd_left _ _)
  have e4 : d.den * Nat.gcd d.period_num d.period_den = d.period_den :=
    Nat.div_mul_cancel (Nat.gcd_dvd_right _ _)
  calc d.num * (d.common_den / d.den) * d.period_den
      = d.num * (d.common_den / d.den) * (d.den * Nat.gcd d.period_num d.period_den) := by
        rw [e4]
    _ = (d.num * Nat.gcd d.period_num d.period_den) * (d.common_den / d.den * d.den) := by
        ring
    _ = d.period_num * d.common_den := by rw [e2, e3]

/-- In the common type, without wrap-around, the comparison of the converted counts is the
comparison of the exact quantities. -/
theorem Duration.converted_le_iff (d : Duration) (x : Int) (hn : 0 < d.period_num)
    (hd : 0 < d.period_den) :
    (d.count * d.rhs_factor ≤ x * d.lhs_factor) ↔ d.le_elapsed x := by
  obtain ⟨hL0, e1, e2⟩ := d.factors hn hd
  unfold Duration.le_elapsed
  have hL : (0 : Int) < (d.common_den : Int) := by exact_mod_cast hL0
  have hD : (0 : Int) < (d.period_den : Int) := by exact_mod_cast hd
  have e1i : (d.lhs_factor : Int) * 1000000000 = d.common_den := by exact_mod_cast e1
  have e2i : (d.rhs_factor : Int) * d.period_den = d.period_num * d.common_den := by
    exact_mod_cast e2
  have k : (0 : Int) < 1000000000 * (d.period_den : Int) := by positivity
  rw [← mul_le_mul_right k]
  have a1 : d.count * (d.rhs_factor : Int) * (1000000000 * (d.period_den : Int)) =
      (d.count * d.period_num * 1000000000) * d.common_den := by
    calc d.count * (d.rhs_factor : Int) * (1000000000 * (d.period_den : Int))
        = d.count * 1000000000 * ((d.rhs_factor : Int) * d.period_den) := by ring
      _ = _ := by rw [e2i]; ring
  have a2 : x * (d.lhs_factor : Int) * (1000000000 * (d.period_den : Int)) =
      (x * d.period_den) * d.common_den := by
    calc x * (d.lhs_factor : Int) * (1000000000 * (d.period_den : Int))
        = x * d.period_den * ((d.lhs_factor : Int) * 1000000000) := by ring
      _ = _ := by rw [e1i]
  rw [a1, a2, mul_le_mul_right hL]

theorem duration_ge_exact {elapsed : Int} {d : Duration} (h : comparison_exact elapsed d) :
    duration_ge elapsed d = decide (d.le_elapsed elapsed) := by
  obtain ⟨hn, hd, _, _, r1, r2, r3, r4⟩ := h
  unfold duration_ge
  rw [d.cast_of_rep_holds _ r1, d.cast_of_rep_holds _ r2, d.cast_of_rep_holds _ r3,
    d.cast_of_rep_holds _ r4]
  by_cases hc : d.le_elapsed elapsed
  · have := (d.converted_le_iff elapsed hn hd).mpr hc
    simp [hc, not_lt.mpr this]
  · have : ¬ d.count * d.rhs_factor ≤ elapsed * d.lhs_factor :=
      fun hle => hc ((d.converted_le_iff elapsed hn hd).mp hle)
    simp [hc, not_le.mp this]

theorem throttle_passes_exact {last now : Int} {d : Duration}
    (h : comparison_exact (now - last) d) :
    throttle_passes (some last) d now = decide (d.le_elapsed (now - last)) := by
  unfold throttle_passes
  simp only
  rw [wrap_int64_of_range _ h.2.2.1 h.2.2.2.1, duration_ge_exact h]

/-! ## Throttling -/

theorem log_throttled_fst (interval : Duration) (loc : source_loc) (lvl : level_enum)
    (msg : String) (now : Int) (s : LogWrapper) :
    (log_throttled interval loc lvl msg now s).1 =
      if throttle_passes (Map.find (throttle_key loc) s.m_throttle_map) interval now then
        { s with m_throttle_map := Map.assign (throttle_key loc) now s.m_throttle_map }
      else s := by
  unfold log_throttled
  by_cases hp : throttle_passes (Map.find (throttle_key loc) s.m_throttle_map) interval now = true
  · cases hl : s.m_logger <;> simp [hp]
  · simp [hp]

theorem log_throttled_snd (interval : Duration) (loc : source_loc) (lvl : level_enum)
    (msg : String) (now : Int) (s : LogWrapper) :
    (log_throttled interval loc lvl msg now s).2 =
      if throttle_passes (Map.find (throttle_key loc) s.m_throttle_map) interval now then
        (match s.m_logger with
         | some l => [Effect.log l loc lvl msg]
         | none => [])
      else [] := by
  unfold log_throttled
  by_cases hp : throttle_passes (Map.find (throttle_key loc) s.m_throttle_map) interval now = true
  · cases hl : s.m_logger <;> simp [hp]
  · simp [hp]

theorem log_throttled_keeps_members (interval : Duration) (loc : source_loc) (lvl : level_enum)
    (msg : String) (now : Int) (s : LogWrapper) :
    (log_throttled interval loc lvl msg now s).1.m_logger = s.m_logger ∧
    (log_throttled interval loc lvl msg now s).1.m_is_initialized = s.m_is_initialized ∧
    (log_throttled interval loc lvl msg now s).1.m_ex_loggers = s.m_ex_loggers := by
  rw [log_throttled_fst]
  by_cases hp : throttle_passes (Map.find (throttle_key loc) s.m_throttle_map) interval now = true
  · simp [hp]
  · simp [hp]

theorem log_throttled_find_of_ne (interval : Duration) (loc : source_loc) (lvl : level_enum)
    (msg : String) (now : Int) (s : LogWrapper) {other : String}
    (h : other ≠ throttle_key loc) :
    Map.find other (log_throttled interval loc lvl msg now s).1.m_throttle_map =
      Map.find other s.m_throttle_map := by
  rw [log_throttled_fst]
  by_cases hp : throttle_passes (Map.find (throttle_key loc) s.m_throttle_map) interval now = true
  · simp [hp, Map.find_assign_of_ne h]
  · simp [hp]

theorem init_returned_keeps_maps {c : LogConfig} {e : Option String} {s s1 : LogWrapper}
    {out : List Effect} (h : init c e s = Outcome.returned s1 out) :
    s1.m_throttle_map = s.m_throttle_map ∧ s1.m_ex_loggers = s.m_ex_loggers := by
  unfold init at h
  by_cases hi : s.m_is_initialized = true
  · simp [hi] at h
    rw [← h.1]; exact ⟨rfl, rfl⟩
  · cases e with
    | none =>
      simp [hi] at h
      rw [← h.1]; exact ⟨rfl, rfl⟩
    | some what => simp [hi] at h

/-- C1, as stated, fails: at a call site whose key is recorded at time 100, one nanosecond
later, with the interval `std::chrono::seconds(10000000000)`, the conversion of the interval
to nanoseconds overflows at LogWrapper.h:112 and the call passes: it is forwarded to the
default logger and the key is recorded at 101, although `now - last >= interval` is false and
the reference `should_emit` answers false. -/
theorem log_throttled_overflowing_interval_passes :
    Map.find (throttle_key ⟨"a.cpp", 1, "f"⟩) [("a.cpp:1", (100 : Int))] = some 100 ∧
    ¬ (seconds 10000000000).le_elapsed (101 - 100) ∧
    (should_emit [("a.cpp:1", 100)] (throttle_key ⟨"a.cpp", 1, "f"⟩) (seconds 10000000000)
      101).1 = false ∧
    log_throttled (seconds 10000000000) ⟨"a.cpp", 1, "f"⟩ level_enum.warn "m" 101
        { m_logger := some (default_logger ({} : LogConfig)), m_is_initialized := true,
          m_throttle_map := [("a.cpp:1", 100)], m_ex_loggers := [] }
      = ({ m_logger := some (default_logger ({} : LogConfig)), m_is_initialized := true,
           m_throttle_map := [("a.cpp:1", 101)], m_ex_loggers := [] },
         [Effect.log (default_logger ({} : LogConfig)) ⟨"a.cpp", 1, "f"⟩ level_enum.warn
            "m"]) := by
  decide

/-- C1, amended. For every interval of an integral duration type that the test at
LogWrapper.h:112 compares without overflow with the time elapsed since the recorded time of
the key (`comparison_exact`, required when the key is present), `log_throttled` implements the
reference `should_emit` on the key `file + ":" + line`: the new throttle state is the one
`should_emit` returns and nothing else in the object changes; the record is handed to the
stored default logger exactly when `should_emit` answers true and a logger is stored.  The
answer is true if and only if the key is absent or `now - last >= interval`; then the key is
recorded at exactly `now`; otherwise the call returns the state it was given and emits
nothing. -/
theorem log_throttled_implements_should_emit (s : LogWrapper) (interval : Duration)
    (loc : source_loc) (lvl : level_enum) (msg : String) (now : Int)
    (h : ∀ last, Map.find (throttle_key loc) s.m_throttle_map = some last →
      comparison_exact (now - last) interval) :
    throttle_key loc = loc.filename ++ ":" ++ to_string loc.line ∧
    log_throttled interval loc lvl msg now s =
      ({ s with m_throttle_map :=
            (should_emit s.m_throttle_map (throttle_key loc) interval now).2 },
       if (should_emit s.m_throttle_map (throttle_key loc) interval now).1 then
         (match s.m_logger with
          | some l => [Effect.log l loc lvl msg]
          | none => [])
       else []) ∧
    ((should_emit s.m_throttle_map (throttle_key loc) interval now).1 = true ↔
      (Map.find (throttle_key loc) s.m_throttle_map = none ∨
        ∃ last, Map.find (throttle_key loc) s.m_throttle_map = some last ∧
          interval.le_elapsed (now - last))) ∧
    ((should_emit s.m_throttle_map (throttle_key loc) interval now).1 = true →
      Map.find (throttle_key loc) (log_throttled interval loc lvl msg now s).1.m_throttle_map
        = some now) ∧
    ((should_emit s.m_throttle_map (throttle_key loc) interval now).1 = false →
      log_throttled interval loc lvl msg now s = (s, [])) := by
  refine ⟨rfl, ?_, ?_, ?_, ?_⟩
  · cases hf : Map.find (throttle_key loc) s.m_throttle_map with
    | none => cases hl : s.m_logger <;> simp [log_throttled, should_emit, throttle_passes, hf, hl]
    | some last =>
      have hx := throttle_passes_exact (h last hf)
      by_cases hp : interval.le_elapsed (now - last)
      · cases hl : s.m_logger <;> simp [log_throttled, should_emit, hf, hl, hp, hx]
      · simp [log_throttled, should_emit, hf, hp, hx]
  · cases hf : Map.find (throttle_key loc) s.m_throttle_map with
    | none => simp [should_emit, hf]
    | some last =>
      by_cases hp : interval.le_elapsed (now - last) <;> simp [should_emit, hf, hp]
  · cases hf : Map.find (throttle_key loc) s.m_throttle_map with
    | none =>
      cases hl : s.m_logger <;>
        simp [log_throttled, should_emit, throttle_passes, hf, hl, Map.find_assign_self]
    | some last =>
      have hx := throttle_passes_exact (h last hf)
      by_cases hp : interval.le_elapsed (now - last)
      · cases hl : s.m_logger <;>
          simp [log_throttled, should_emit, hf, hl, hp, hx, Map.find_assign_self]
      · simp [should_emit, hf, hp]
  · cases hf : Map.find (throttle_key loc) s.m_throttle_map with
    | none => simp [should_emit, hf]
    | some last =>
      have hx := throttle_passes_exact (h last hf)
      by_cases hp : interval.le_elapsed (now - last) <;>
        simp [log_throttled, should_emit, hf, hp, hx]

theorem log_throttled_implements_should_emit_witness :
    comparison_exact (2100000000 - 0) (seconds 2) ∧
    log_throttled (seconds 2) ⟨"main.cpp", 6, "module_A_work"⟩ level_enum.info "m" 2100000000
        { m_logger := some (default_logger ({} : LogConfig)), m_is_initialized := true,
          m_throttle_map := [("main.cpp:6", 0)], m_ex_loggers := [] } =
      ({ m_logger := some (default_logger ({} : LogConfig)), m_is_initialized := true,
         m_throttle_map :=
           (should_emit [("main.cpp:6", 0)] (throttle_key ⟨"main.cpp", 6, "module_A_work"⟩)
              (seconds 2) 2100000000).2,
         m_ex_loggers := [] },
       if (should_emit [("main.cpp:6", 0)] (throttle_key ⟨"main.cpp", 6, "module_A_work"⟩)
              (seconds 2) 2100000000).1 then
         [Effect.log (default_logger ({} : LogConfig)) ⟨"main.cpp", 6, "module_A_work"⟩
            level_enum.info "m"]
       else []) ∧
    (should_emit [("main.cpp:6", 0)] (throttle_key ⟨"main.cpp", 6, "module_A_work"⟩)
        (seconds 2) 2100000000).1 = true :=
  ⟨by decide,
   (log_throttled_implements_should_emit
      { m_logger := some (default_logger ({} : LogConfig)), m_is_initialized := true,
        m_throttle_map := [("main.cpp:6", 0)], m_ex_loggers := [] }
      (seconds 2) ⟨"main.cpp", 6, "module_A_work"⟩ level_enum.info "m" 2100000000
      (fun last hl => by
        have e : last = 0 := (Option.some.inj hl).symm
        rw [e]
        decide)).2.1,
   by decide⟩

/-- C3, as stated, fails: with a clock value read before the recorded one (recorded 100, now
60), a call with the negative interval `nanoseconds(-50)` passes, and so does a call with the
interval 50 of an unsigned 64-bit nanosecond duration, for which the negative difference wraps
around; each moves the recorded time of its key back from 100 to 60. -/
theorem throttle_timestamp_moves_back :
    Map.find "a.cpp:1"
        ({ LogWrapper.fresh with m_throttle_map := [("a.cpp:1", 100)] }).m_throttle_map
      = some 100 ∧
    Map.find "a.cpp:1"
        (log_throttled (nanoseconds (-50)) ⟨"a.cpp", 1, "f"⟩ level_enum.warn "m" 60
          { LogWrapper.fresh with m_throttle_map := [("a.cpp:1", 100)] }).1.m_throttle_map
      = some 60 ∧
    Map.find "a.cpp:1"
        (log_throttled
          { count := 50, rep_unsigned64 := true, period_num := 1, period_den := 1000000000 }
          ⟨"a.cpp", 1, "f"⟩ level_enum.warn "m" 60
          { LogWrapper.fresh with m_throttle_map := [("a.cpp:1", 100)] }).1.m_throttle_map
      = some 60 ∧
    ¬ ((100 : Int) ≤ 60) := by
  decide

/-- C3, amended. For every throttle state, every key present in it and every `log_throttled`
call whose clock value is not earlier than the time recorded for that key, or whose interval
is not negative and is compared at LogWrapper.h:112 without overflow with the time elapsed
since that recorded time, the time recorded for the key after the call is greater than or
equal to the time recorded before it. -/
theorem throttle_timestamp_monotone (s : LogWrapper) (key : String) (t : Int)
    (interval : Duration) (loc : source_loc) (lvl : level_enum) (msg : String) (now : Int)
    (hkey : Map.find key s.m_throttle_map = some t)
    (h : t ≤ now ∨ (0 ≤ interval.count ∧ comparison_exact (now - t) interval)) :
    ∃ t2, Map.find key (log_throttled interval loc lvl msg now s).1.m_throttle_map = some t2 ∧
      t ≤ t2 := by
  by_cases hk : key = throttle_key loc
  · subst hk
    rw [log_throttled_fst]
    by_cases hp : throttle_passes (Map.find (throttle_key loc) s.m_throttle_map) interval now
        = true
    · refine ⟨now, ?_, ?_⟩
      · simp [hp, Map.find_assign_self]
      · rcases h with h | ⟨h0, hx⟩
        · exact h
        · rw [hkey, throttle_passes_exact hx, decide_eq_true_eq] at hp
          unfold Duration.le_elapsed at hp
          obtain ⟨hn, hd, _⟩ := hx
          have hD : (0 : Int) < (interval.period_den : Int) := by exact_mod_cast hd
          have h1 : (0 : Int) ≤ interval.count * interval.period_num * 1000000000 := by
            positivity
          have h2 : (0 : Int) ≤ (now - t) * interval.period_den := le_trans h1 hp
          have h3 : (0 : Int) ≤ now - t := nonneg_of_mul_nonneg_left h2 hD
          omega
    · exact ⟨t, by rw [if_neg hp]; exact hkey, le_refl t⟩
  · exact ⟨t, by rw [log_throttled_find_of_ne _ _ _ _ _ _ hk]; exact hkey, le_refl t⟩

theorem throttle_timestamp_monotone_witness :
    Map.find "a.cpp:1"
        ({ LogWrapper.fresh with m_throttle_map := [("a.cpp:1", 100)] }).m_throttle_map
      = some 100 ∧
    ((100 : Int) ≤ 60 ∨
      (0 ≤ (nanoseconds 50).count ∧ comparison_exact (60 - 100) (nanoseconds 50))) ∧
    ∃ t2, Map.find "a.cpp:1"
        (log_throttled (nanoseconds 50) ⟨"a.cpp", 1, "f"⟩ level_enum.warn "m" 60
          { LogWrapper.fresh with m_throttle_map := [("a.cpp:1", 100)] }).1.m_throttle_map
        = some t2 ∧ (100 : Int) ≤ t2 :=
  ⟨by decide, Or.inr (by decide),
   throttle_timestamp_monotone { LogWrapper.fresh with m_throttle_map := [("a.cpp:1", 100)] }
    "a.cpp:1" 100 (nanoseconds 50) ⟨"a.cpp", 1, "f"⟩ level_enum.warn "m" 60 (by decide)
    (Or.inr (by decide))⟩

/-- C4, as stated, fails: a `log_throttled` call on a never-initialised facade records its key
in the throttle state, and the same call site is then suppressed after `init`, one second
later, although the same call after `init` alone would have been emitted. -/
theorem log_throttled_before_init_changes_state :
    (log_throttled (seconds 2) ⟨"main.cpp", 6, "module_A_work"⟩ level_enum.info "m" 0
        LogWrapper.fresh).1 ≠ LogWrapper.fresh ∧
    run LogWrapper.fresh
        [Op.log_throttled (seconds 2) ⟨"main.cpp", 6, "module_A_work"⟩ level_enum.info "m" 0,
         Op.init ({} : LogConfig) none,
         Op.log_throttled (seconds 2) ⟨"main.cpp", 6, "module_A_work"⟩ level_enum.info "m"
           1000000000]
      = Outcome.returned
          { m_logger := some (default_logger ({} : LogConfig)), m_is_initialized := true,
            m_throttle_map := [("main.cpp:6", 0)], m_ex_loggers := [] }
          [Effect.init_thread_pool 8192 1,
           Effect.make_sink (Sink.stdout_color_sink_mt level_enum.trace),
           Effect.make_sink
             (Sink.rotating_file_sink_mt "logs/rlog.log" (1024 * 1024 * 50) 5 level_enum.trace),
           Effect.make_logger (default_logger ({} : LogConfig)),
           Effect.set_default_logger (default_logger ({} : LogConfig))] ∧
    run LogWrapper.fresh
        [Op.init ({} : LogConfig) none,
         Op.log_throttled (seconds 2) ⟨"main.cpp", 6, "module_A_work"⟩ level_enum.info "m"
           1000000000]
      = Outcome.returned
          { m_logger := some (default_logger ({} : LogConfig)), m_is_initialized := true,
            m_throttle_map := [("main.cpp:6", 1000000000)], m_ex_loggers := [] }
          [Effect.init_thread_pool 8192 1,
           Effect.make_sink (Sink.stdout_color_sink_mt level_enum.trace),
           Effect.make_sink
             (Sink.rotating_file_sink_mt "logs/rlog.log" (1024 * 1024 * 50) 5 level_enum.trace),
           Effect.make_logger (default_logger ({} : LogConfig)),
           Effect.set_default_logger (default_logger ({} : LogConfig)),
           Effect.log (default_logger ({} : LogConfig))
             ⟨"main.cpp", 6, "module_A_work"⟩ level_enum.info "m"] := by
  decide

/-- C4, amended. On a facade that holds no default logger, `log_throttled` emits nothing and
returns; it leaves the stored logger, the initialised flag and the extra-logger registry
unchanged, and it still takes the throttle decision: when the call passes the test of
LogWrapper.h:112 (the key is absent, or `now - last >= interval` as computed there) the key is
recorded at `now`, and otherwise the state is unchanged.  After a passing call, whenever a
following `init` returns, the key is still recorded at `now`, and every `log_throttled` call
made then at the same call site, at a time `now2` and with an interval `interval2` for which
the test `now2 - now >= interval2` fails, is suppressed: it emits nothing and leaves the state
unchanged. -/
theorem log_throttled_before_init (s : LogWrapper) (interval : Duration) (loc : source_loc)
    (lvl : level_enum) (msg : String) (now : Int) (h : s.m_logger = none) :
    log_throttled interval loc lvl msg now s =
      (if throttle_passes (Map.find (throttle_key loc) s.m_throttle_map) interval now then
         { s with m_throttle_map := Map.assign (throttle_key loc) now s.m_throttle_map }
       else s, []) ∧
    (throttle_passes (Map.find (throttle_key loc) s.m_throttle_map) interval now = true →
      ∀ (c : LogConfig) (e : Option String) (s1 : LogWrapper) (out : List Effect),
        init c e (log_throttled interval loc lvl msg now s).1 = Outcome.returned s1 out →
        Map.find (throttle_key loc) s1.m_throttle_map = some now ∧
        ∀ (interval2 : Duration) (lvl2 : level_enum) (msg2 : String) (now2 : Int),
          duration_ge (wrap_int64 (now2 - now)) interval2 = false →
          log_throttled interval2 loc lvl2 msg2 now2 s1 = (s1, [])) := by
  have h1 : log_throttled interval loc lvl msg now s =
      (if throttle_passes (Map.find (throttle_key loc) s.m_throttle_map) interval now then
         { s with m_throttle_map := Map.assign (throttle_key loc) now s.m_throttle_map }
       else s, []) := by
    unfold log_throttled
    by_cases hp : throttle_passes (Map.find (throttle_key loc) s.m_throttle_map) interval now
        = true
    · simp [hp, h]
    · simp [hp]
  refine ⟨h1, ?_⟩
  intro hp c e s1 out hi
  have hm := (init_returned_keeps_maps hi).1
  rw [h1, if_pos hp] at hm
  simp only at hm
  have hf : Map.find (throttle_key loc) s1.m_throttle_map = some now := by
    rw [hm]; exact Map.find_assign_self _ _ _
  refine ⟨hf, ?_⟩
  intro interval2 lvl2 msg2 now2 hge
  unfold log_throttled
  simp [hf, throttle_passes, hge]

theorem log_throttled_before_init_witness :
    LogWrapper.fresh.m_logger = none ∧
    log_throttled (seconds 2) ⟨"main.cpp", 6, "module_A_work"⟩ level_enum.info "m" 0
        LogWrapper.fresh =
      (if throttle_passes
            (Map.find (throttle_key ⟨"main.cpp", 6, "module_A_work"⟩)
              LogWrapper.fresh.m_throttle_map) (seconds 2) 0 then
         { LogWrapper.fresh with
           m_throttle_map :=
             Map.assign (throttle_key ⟨"main.cpp", 6, "module_A_work"⟩) 0
               LogWrapper.fresh.m_throttle_map }
       else LogWrapper.fresh, []) ∧
    throttle_passes
        (Map.find (throttle_key ⟨"main.cpp", 6, "module_A_work"⟩)
          LogWrapper.fresh.m_throttle_map) (seconds 2) 0 = true :=
  ⟨rfl,
   (log_throttled_before_init LogWrapper.fresh (seconds 2) ⟨"main.cpp", 6, "module_A_work"⟩
      level_enum.info "m" 0 rfl).1,
   by decide⟩

/-- C2. Two call sites that differ in file path or in line number have different throttle
keys; a `log_throttled` call at the first site leaves the recorded time (or the absence) of the
second site's key unchanged, and a later call at the second site takes the same decision and
emits the same records as if the call at the first site had not been made. -/
theorem throttle_sites_independent (loc1 loc2 : source_loc)
    (h : loc1.filename ≠ loc2.filename ∨ loc1.line ≠ loc2.line) :
    throttle_key loc1 ≠ throttle_key loc2 ∧
    ∀ (s : LogWrapper) (interval1 : Duration) (lvl1 : level_enum) (msg1 : String) (now1 : Int),
      Map.find (throttle_key loc2)
          (log_throttled interval1 loc1 lvl1 msg1 now1 s).1.m_throttle_map
        = Map.find (throttle_key loc2) s.m_throttle_map ∧
      ∀ (interval2 : Duration) (lvl2 : level_enum) (msg2 : String) (now2 : Int),
        throttle_passes
            (Map.find (throttle_key loc2)
              (log_throttled interval1 loc1 lvl1 msg1 now1 s).1.m_throttle_map) interval2 now2
          = throttle_passes (Map.find (throttle_key loc2) s.m_throttle_map) interval2 now2 ∧
        (log_throttled interval2 loc2 lvl2 msg2 now2
            (log_throttled interval1 loc1 lvl1 msg1 now1 s).1).2
          = (log_throttled interval2 loc2 lvl2 msg2 now2 s).2 := by
  have hne : throttle_key loc1 ≠ throttle_key loc2 := by
    intro e
    obtain ⟨e1, e2⟩ := throttle_key_injective e
    rcases h with h | h
    · exact h e1
    · exact h e2
  refine ⟨hne, ?_⟩
  intro s interval1 lvl1 msg1 now1
  have hfind := log_throttled_find_of_ne interval1 loc1 lvl1 msg1 now1 s (Ne.symm hne)
  refine ⟨hfind, ?_⟩
  intro interval2 lvl2 msg2 now2
  refine ⟨by rw [hfind], ?_⟩
  rw [log_throttled_snd, log_throttled_snd, hfind,
    (log_throttled_keeps_members interval1 loc1 lvl1 msg1 now1 s).1]

theorem throttle_sites_independent_witness :
    ((⟨"main.cpp", 6, "module_A_work"⟩ : source_loc).filename ≠
        (⟨"main.cpp", 15, "module_B_work"⟩ : source_loc).filename ∨
      (⟨"main.cpp", 6, "module_A_work"⟩ : source_loc).line ≠
        (⟨"main.cpp", 15, "module_B_work"⟩ : source_loc).line) ∧
    throttle_key ⟨"main.cpp", 6, "module_A_work"⟩ ≠
      throttle_key ⟨"main.cpp", 15, "module_B_work"⟩ ∧
    Map.find (throttle_key ⟨"main.cpp", 15, "module_B_work"⟩)
        (log_throttled (seconds 2) ⟨"main.cpp", 6, "module_A_work"⟩ level_enum.info "a" 0
          LogWrapper.fresh).1.m_throttle_map
      = Map.find (throttle_key ⟨"main.cpp", 15, "module_B_work"⟩)
          LogWrapper.fresh.m_throttle_map :=
  ⟨Or.inr (by decide),
   (throttle_sites_independent ⟨"main.cpp", 6, "module_A_work"⟩
      ⟨"main.cpp", 15, "module_B_work"⟩ (Or.inr (by decide))).1,
   ((throttle_sites_independent ⟨"main.cpp", 6, "module_A_work"⟩
      ⟨"main.cpp", 15, "module_B_work"⟩ (Or.inr (by decide))).2
      LogWrapper.fresh (seconds 2) level_enum.info "a" 0).1⟩

/-! ## Initialisation and shutdown -/

theorem init_returned_initialized {c : LogConfig} {e : Option String} {s s1 : LogWrapper}
    {out : List Effect} (h : init c e s = Outcome.returned s1 out) :
    s1.m_is_initialized = true := by
  unfold init at h
  by_cases hi : s.m_is_initialized = true
  · simp [hi] at h
    rw [← h.1]; exact hi
  · cases e with
    | none =>
      simp [hi] at h
      rw [← h.1]
    | some what => simp [hi] at h

/-- C9. Initialisation is idempotent: when `init(c1)` has returned, a following `init(c2)`
returns the same state and constructs nothing (its list of effects is empty), so the run
`init(c1); init(c2)` ends exactly as the run `init(c1)` does; when the facade was not yet
initialised, the stored logger is the one built from `c1` (name, level, sinks), and
`get_logger` returns it.  `get_logger` returns the stored logger if the facade is initialised
and none otherwise; being a function of the state alone, it creates nothing. -/
theorem init_idempotent (c1 c2 : LogConfig) (e1 e2 : Option String) (s s1 : LogWrapper)
    (out1 : List Effect) (h : init c1 e1 s = Outcome.returned s1 out1) :
    init c2 e2 s1 = Outcome.returned s1 [] ∧
    run s [Op.init c1 e1, Op.init c2 e2] = run s [Op.init c1 e1] ∧
    (s.m_is_initialized = false →
      s1 = { s with m_logger := some (default_logger c1), m_is_initialized := true } ∧
      get_logger s1 = some (default_logger c1) ∧
      (default_logger c1).name = c1.loggerName ∧
      (default_logger c1).level = c1.logLevel ∧
      (default_logger c1).sinks =
        [Sink.stdout_color_sink_mt c1.logLevel,
         Sink.rotating_file_sink_mt c1.filePath c1.maxFileSize c1.maxFiles c1.logLevel]) ∧
    (∀ t : LogWrapper, get_logger t = if t.m_is_initialized then t.m_logger else none) := by
  have hi := init_returned_initialized h
  have h2 : init c2 e2 s1 = Outcome.returned s1 [] := by simp [init, hi]
  refine ⟨h2, ?_, ?_, ?_⟩
  · simp [run, step, h, h2]
  · intro hs
    unfold init at h
    cases e1 with
    | none =>
      simp [hs] at h
      refine ⟨h.1.symm, ?_, rfl, rfl, rfl⟩
      rw [← h.1]
      simp [get_logger]
    | some what => simp [hs] at h
  · intro t
    cases ht : t.m_is_initialized <;> simp [get_logger, ht]

theorem init_idempotent_witness :
    init ({} : LogConfig) none LogWrapper.fresh =
      Outcome.returned
        { LogWrapper.fresh with
          m_logger := some (default_logger ({} : LogConfig)), m_is_initialized := true }
        [Effect.init_thread_pool 8192 1,
         Effect.make_sink (Sink.stdout_color_sink_mt level_enum.trace),
         Effect.make_sink
           (Sink.rotating_file_sink_mt "logs/rlog.log" (1024 * 1024 * 50) 5 level_enum.trace),
         Effect.make_logger (default_logger ({} : LogConfig)),
         Effect.set_default_logger (default_logger ({} : LogConfig))] ∧
    init { loggerName := "Other", logLevel := level_enum.info, useAsync := false } none
        { LogWrapper.fresh with
          m_logger := some (default_logger ({} : LogConfig)), m_is_initialized := true } =
      Outcome.returned
        { LogWrapper.fresh with
          m_logger := some (default_logger ({} : LogConfig)), m_is_initialized := true } [] :=
  ⟨by decide,
   (init_idempotent ({} : LogConfig)
      { loggerName := "Other", logLevel := level_enum.info, useAsync := false } none none
      LogWrapper.fresh
      { LogWrapper.fresh with
        m_logger := some (default_logger ({} : LogConfig)), m_is_initialized := true }
      [Effect.init_thread_pool 8192 1,
       Effect.make_sink (Sink.stdout_color_sink_mt level_enum.trace),
       Effect.make_sink
         (Sink.rotating_file_sink_mt "logs/rlog.log" (1024 * 1024 * 50) 5 level_enum.trace),
       Effect.make_logger (default_logger ({} : LogConfig)),
       Effect.set_default_logger (default_logger ({} : LogConfig))]
      (by decide)).1⟩

/-- C8, as stated, fails: after `shutdown()` the facade of `main.cpp` still stores its default
logger and its extra-logger registry still binds `module_A_debug`; a later `log_ex` for that key
emits to the logger created before the shutdown, and a later `log_throttled` emits to the
default logger created before the shutdown. -/
theorem shutdown_keeps_handles :
    run LogWrapper.fresh
        [Op.init ({} : LogConfig) none,
         Op.log_ex "module_A_debug" ⟨"main.cpp", 7, "module_A_work"⟩ level_enum.info "m"
           example_tm none]
      = Outcome.returned example_running
          [Effect.init_thread_pool 8192 1,
           Effect.make_sink (Sink.stdout_color_sink_mt level_enum.trace),
           Effect.make_sink
             (Sink.rotating_file_sink_mt "logs/rlog.log" (1024 * 1024 * 50) 5 level_enum.trace),
           Effect.make_logger (default_logger ({} : LogConfig)),
           Effect.set_default_logger (default_logger ({} : LogConfig)),
           Effect.make_sink
             (Sink.basic_file_sink_mt "logs/extra/module_A_debug_2024-01-02_03_04_05.log" true),
           Effect.make_logger (extra_logger "module_A_debug" example_tm),
           Effect.log (extra_logger "module_A_debug" example_tm)
             ⟨"main.cpp", 7, "module_A_work"⟩ level_enum.info "m"] ∧
    (shutdown example_running).1.m_logger = some (default_logger ({} : LogConfig)) ∧
    (shutdown example_running).1.m_ex_loggers =
      [("module_A_debug", extra_logger "module_A_debug" example_tm)] ∧
    log_ex "module_A_debug" ⟨"main.cpp", 7, "module_A_work"⟩ level_enum.info "m"
        { example_tm with tm_sec := 9 } none (shutdown example_running).1
      = Outcome.returned (shutdown example_running).1
          [Effect.log (extra_logger "module_A_debug" example_tm)
            ⟨"main.cpp", 7, "module_A_work"⟩ level_enum.info "m"] ∧
    (log_throttled (seconds 2) ⟨"main.cpp", 6, "module_A_work"⟩ level_enum.info "m" 0
        (shutdown example_running).1).2
      = [Effect.log (default_logger ({} : LogConfig))
          ⟨"main.cpp", 6, "module_A_work"⟩ level_enum.info "m"] ∧
    (shutdown example_running).1 ≠ LogWrapper.fresh := by
  decide

/-- C8, amended. For every facade state, `shutdown()` clears the initialised flag and nothing
else: afterwards `get_logger` returns none, while the stored default logger, the throttle state
and the extra-logger registry are the ones held before; the backend is shut down exactly when
the facade was initialised, and a second `shutdown()` changes nothing and has no effect.  A
following `init(c)` whose file sink can be built runs again: it stores the logger built from
`c`, sets the flag, and keeps the throttle state and the registry. -/
theorem shutdown_clears_flag_only (s : LogWrapper) :
    (shutdown s).1 = { s with m_is_initialized := false } ∧
    (shutdown s).2 = (if s.m_is_initialized then [Effect.spdlog_shutdown] else []) ∧
    get_logger (shutdown s).1 = none ∧
    shutdown (shutdown s).1 = ((shutdown s).1, []) ∧
    ∀ c : LogConfig, init c none (shutdown s).1 =
      Outcome.returned
        { s with m_logger := some (default_logger c), m_is_initialized := true }
        ((if c.useAsync then [Effect.init_thread_pool 8192 1] else []) ++
          [Effect.make_sink (Sink.stdout_color_sink_mt c.logLevel),
           Effect.make_sink
             (Sink.rotating_file_sink_mt c.filePath c.maxFileSize c.maxFiles c.logLevel),
           Effect.make_logger (default_logger c),
           Effect.set_default_logger (default_logger c)]) := by
  obtain ⟨l, ini, tm, ex⟩ := s
  cases ini <;> simp [shutdown, get_logger, init]

/-! ## Extra loggers -/

theorem log_ex_bound (key : String) (loc : source_loc) (lvl : level_enum) (msg : String)
    (tm : Tm) (e : Option String) (s : LogWrapper) {l : Logger}
    (h : Map.find key s.m_ex_loggers = some l) :
    log_ex key loc lvl msg tm e s = Outcome.returned s [Effect.log l loc lvl msg] := by
  simp [log_ex, h]

theorem log_ex_created (key : String) (loc : source_loc) (lvl : level_enum) (msg : String)
    (tm : Tm) (s : LogWrapper) (h : Map.find key s.m_ex_loggers = none) :
    log_ex key loc lvl msg tm none s =
      Outcome.returned
        { s with m_ex_loggers := Map.assign key (extra_logger key tm) s.m_ex_loggers }
        [Effect.make_sink (Sink.basic_file_sink_mt (file_path key tm) true),
         Effect.make_logger (extra_logger key tm),
         Effect.log (extra_logger key tm) loc lvl msg] := by
  simp [log_ex, h]

theorem log_ex_failed (key : String) (loc : source_loc) (lvl : level_enum) (msg : String)
    (tm : Tm) (what : String) (s : LogWrapper) (h : Map.find key s.m_ex_loggers = none) :
    log_ex key loc lvl msg tm (some what) s =
      LOG_ERROR ("Failed to create extra logger for key \x27" ++ key ++ "\x27: " ++ what) s := by
  simp [log_ex, h]

/-- C5, as stated, fails: on a never-initialised facade, `log_ex` for a new key whose file
sink can be built constructs the extra logger and hands the record to it. -/
theorem log_ex_before_init_emits :
    LogWrapper.fresh.m_is_initialized = false ∧
    log_ex "module_A_debug" ⟨"main.cpp", 7, "module_A_work"⟩ level_enum.info "m" example_tm
        none LogWrapper.fresh
      = Outcome.returned
          { LogWrapper.fresh with
            m_ex_loggers := [("module_A_debug", extra_logger "module_A_debug" example_tm)] }
          [Effect.make_sink
             (Sink.basic_file_sink_mt "logs/extra/module_A_debug_2024-01-02_03_04_05.log" true),
           Effect.make_logger (extra_logger "module_A_debug" example_tm),
           Effect.log (extra_logger "module_A_debug" example_tm)
             ⟨"main.cpp", 7, "module_A_work"⟩ level_enum.info "m"] := by
  decide

/-- C5, amended. On a facade on which `init` has not succeeded (no stored logger, flag not
set), so that `get_logger` reports no default logger, a `log_ex` call returns to the caller and
hands the record to the extra logger of its key and to no other logger, whenever the key is
already bound (the bound logger is used and nothing is constructed) or the file sink of a new
key can be built (the new logger is bound to the key and used). -/
theorem log_ex_before_init (s : LogWrapper) (key : String) (loc : source_loc)
    (lvl : level_enum) (msg : String) (tm : Tm)
    (h : s.m_logger = none ∧ s.m_is_initialized = false) :
    get_logger s = none ∧
    (∀ (l : Logger) (e : Option String), Map.find key s.m_ex_loggers = some l →
      log_ex key loc lvl msg tm e s = Outcome.returned s [Effect.log l loc lvl msg]) ∧
    (Map.find key s.m_ex_loggers = none →
      log_ex key loc lvl msg tm none s =
        Outcome.returned
          { s with m_ex_loggers := Map.assign key (extra_logger key tm) s.m_ex_loggers }
          [Effect.make_sink (Sink.basic_file_sink_mt (file_path key tm) true),
           Effect.make_logger (extra_logger key tm),
           Effect.log (extra_logger key tm) loc lvl msg]) := by
  refine ⟨by simp [get_logger, h.2], ?_, ?_⟩
  · intro l e hl
    exact log_ex_bound key loc lvl msg tm e s hl
  · intro hn
    exact log_ex_created key loc lvl msg tm s hn

theorem log_ex_before_init_witness :
    (LogWrapper.fresh.m_logger = none ∧ LogWrapper.fresh.m_is_initialized = false) ∧
    get_logger LogWrapper.fresh = none ∧
    log_ex "k" ⟨"main.cpp", 7, "module_A_work"⟩ level_enum.info "m" example_tm none
        LogWrapper.fresh =
      Outcome.returned
        { LogWrapper.fresh with
          m_ex_loggers :=
            Map.assign "k" (extra_logger "k" example_tm) LogWrapper.fresh.m_ex_loggers }
        [Effect.make_sink (Sink.basic_file_sink_mt (file_path "k" example_tm) true),
         Effect.make_logger (extra_logger "k" example_tm),
         Effect.log (extra_logger "k" example_tm)
           ⟨"main.cpp", 7, "module_A_work"⟩ level_enum.info "m"] :=
  ⟨⟨rfl, rfl⟩,
   (log_ex_before_init LogWrapper.fresh "k" ⟨"main.cpp", 7, "module_A_work"⟩ level_enum.info
      "m" example_tm ⟨rfl, rfl⟩).1,
   (log_ex_before_init LogWrapper.fresh "k" ⟨"main.cpp", 7, "module_A_work"⟩ level_enum.info
      "m" example_tm ⟨rfl, rfl⟩).2.2 rfl⟩

theorem step_keeps_binding {s s1 : LogWrapper} {op : Op} {out : List Effect} {key : String}
    {l : Logger} (hs : step s op = Outcome.returned s1 out)
    (h : Map.find key s.m_ex_loggers = some l) : Map.find key s1.m_ex_loggers = some l := by
  cases op with
  | init c e =>
    simp only [step, init] at hs
    by_cases hi : s.m_is_initialized = true
    · simp [hi] at hs
      rw [← hs.1]; exact h
    · cases e with
      | none =>
        simp [hi] at hs
        rw [← hs.1]; exact h
      | some what => simp [hi] at hs
  | log_throttled interval loc lvl msg now =>
    simp only [step, Outcome.returned.injEq] at hs
    rw [← hs.1, (log_throttled_keeps_members interval loc lvl msg now s).2.2]
    exact h
  | log_ex k loc lvl msg tm e =>
    simp only [step] at hs
    cases hk : Map.find k s.m_ex_loggers with
    | some l2 =>
      rw [log_ex_bound k loc lvl msg tm e s hk] at hs
      simp only [Outcome.returned.injEq] at hs
      rw [← hs.1]; exact h
    | none =>
      have hne : key ≠ k := by
        intro e2
        rw [e2, hk] at h
        exact Option.noConfusion h
      cases e with
      | none =>
        rw [log_ex_created k loc lvl msg tm s hk] at hs
        simp only [Outcome.returned.injEq] at hs
        rw [← hs.1]
        simp only
        rw [Map.find_assign_of_ne hne]
        exact h
      | some what =>
        rw [log_ex_failed k loc lvl msg tm what s hk] at hs
        unfold LOG_ERROR at hs
        cases hg : get_logger s with
        | none => simp [hg] at hs
        | some d =>
          simp [hg] at hs
          rw [← hs.1]; exact h
  | shutdown =>
    simp only [step, Outcome.returned.injEq] at hs
    rw [← hs.1]
    unfold shutdown
    by_cases hi : s.m_is_initialized = true
    · simp [hi]; exact h
    · simp [hi]; exact h

theorem run_keeps_binding : ∀ (ops : List Op) (s s2 : LogWrapper) (out : List Effect)
    (key : String) (l : Logger), run s ops = Outcome.returned s2 out →
    Map.find key s.m_ex_loggers = some l → Map.find key s2.m_ex_loggers = some l := by
  intro ops
  induction ops with
  | nil =>
    intro s s2 out key l hr h
    simp only [run, Outcome.returned.injEq] at hr
    rw [← hr.1]; exact h
  | cons op ops ih =>
    intro s s2 out key l hr h
    simp only [run] at hr
    cases hs : step s op with
    | returned s1 out1 =>
      rw [hs] at hr
      simp only at hr
      cases hr2 : run s1 ops with
      | returned s3 out3 =>
        rw [hr2] at hr
        simp only [Outcome.returned.injEq] at hr
        rw [← hr.1]
        exact ih s1 s3 out3 key l hr2 (step_keeps_binding hs h)
      | exited code out3 => rw [hr2] at hr; simp at hr
      | null_deref out3 => rw [hr2] at hr; simp at hr
    | exited code out1 => rw [hs] at hr; simp at hr
    | null_deref out1 => rw [hs] at hr; simp at hr

/-- C6. Extra-logger bindings are created once and never change.  A `log_ex` call for an
unbound key whose file sink can be built binds the key to the logger it constructs.  Once a key
is bound to a logger, then after every sequence of facade calls (`init`, `log_throttled`,
`log_ex`, `shutdown`) that runs to its end the key is still bound to that same logger, and every
later `log_ex` call with the key returns, hands its record to that logger, constructs no logger
and no sink, and leaves the whole state, hence the binding of every key, unchanged. -/
theorem extra_logger_binding_stable (ops : List Op) (s s2 : LogWrapper) (out : List Effect)
    (key : String) (l : Logger) (h : Map.find key s.m_ex_loggers = some l)
    (hr : run s ops = Outcome.returned s2 out) :
    Map.find key s2.m_ex_loggers = some l ∧
    (∀ (loc : source_loc) (lvl : level_enum) (msg : String) (tm : Tm) (e : Option String),
      log_ex key loc lvl msg tm e s2 = Outcome.returned s2 [Effect.log l loc lvl msg]) ∧
    (∀ (s0 : LogWrapper) (loc : source_loc) (lvl : level_enum) (msg : String) (tm : Tm),
      Map.find key s0.m_ex_loggers = none →
      ∃ s1 out1, log_ex key loc lvl msg tm none s0 = Outcome.returned s1 out1 ∧
        Map.find key s1.m_ex_loggers = some (extra_logger key tm)) := by
  have hb := run_keeps_binding ops s s2 out key l hr h
  refine ⟨hb, ?_, ?_⟩
  · intro loc lvl msg tm e
    exact log_ex_bound key loc lvl msg tm e s2 hb
  · intro s0 loc lvl msg tm hn
    refine ⟨_, _, log_ex_created key loc lvl msg tm s0 hn, ?_⟩
    simp only
    exact Map.find_assign_self _ _ _

theorem extra_logger_binding_stable_witness :
    Map.find "module_A_debug" example_running.m_ex_loggers =
      some (extra_logger "module_A_debug" example_tm) ∧
    run example_running
        [Op.shutdown,
         Op.log_ex "module_B_heavy_trace" ⟨"main.cpp", 16, "module_B_work"⟩ level_enum.trace "t"
           { example_tm with tm_sec := 6 } none,
         Op.init ({} : LogConfig) none]
      = Outcome.returned
          { example_running with
            m_ex_loggers :=
              [("module_A_debug", extra_logger "module_A_debug" example_tm),
               ("module_B_heavy_trace",
                 extra_logger "module_B_heavy_trace" { example_tm with tm_sec := 6 })] }
          [Effect.spdlog_shutdown,
           Effect.make_sink
             (Sink.basic_file_sink_mt "logs/extra/module_B_heavy_trace_2024-01-02_03_04_06.log"
               true),
           Effect.make_logger
             (extra_logger "module_B_heavy_trace" { example_tm with tm_sec := 6 }),
           Effect.log (extra_logger "module_B_heavy_trace" { example_tm with tm_sec := 6 })
             ⟨"main.cpp", 16, "module_B_work"⟩ level_enum.trace "t",
           Effect.init_thread_pool 8192 1,
           Effect.make_sink (Sink.stdout_color_sink_mt level_enum.trace),
           Effect.make_sink
             (Sink.rotating_file_sink_mt "logs/rlog.log" (1024 * 1024 * 50) 5 level_enum.trace),
           Effect.make_logger (default_logger ({} : LogConfig)),
           Effect.set_default_logger (default_logger ({} : LogConfig))] ∧
    Map.find "module_A_debug"
        ({ example_running with
            m_ex_loggers :=
              [("module_A_debug", extra_logger "module_A_debug" example_tm),
               ("module_B_heavy_trace",
                 extra_logger "module_B_heavy_trace" { example_tm with tm_sec := 6 })] }
          ).m_ex_loggers
      = some (extra_logger "module_A_debug" example_tm) :=
  ⟨by decide, by decide,
   (extra_logger_binding_stable _ example_running _ _ "module_A_debug"
      (extra_logger "module_A_debug" example_tm) (by decide)
      (show run example_running
          [Op.shutdown,
           Op.log_ex "module_B_heavy_trace" ⟨"main.cpp", 16, "module_B_work"⟩ level_enum.trace
             "t" { example_tm with tm_sec := 6 } none,
           Op.init ({} : LogConfig) none]
        = Outcome.returned
            { example_running with
              m_ex_loggers :=
                [("module_A_debug", extra_logger "module_A_debug" example_tm),
                 ("module_B_heavy_trace",
                   extra_logger "module_B_heavy_trace" { example_tm with tm_sec := 6 })] }
            [Effect.spdlog_shutdown,
             Effect.make_sink
               (Sink.basic_file_sink_mt
                 "logs/extra/module_B_heavy_trace_2024-01-02_03_04_06.log" true),
             Effect.make_logger
               (extra_logger "module_B_heavy_trace" { example_tm with tm_sec := 6 }),
             Effect.log (extra_logger "module_B_heavy_trace" { example_tm with tm_sec := 6 })
               ⟨"main.cpp", 16, "module_B_work"⟩ level_enum.trace "t",
             Effect.init_thread_pool 8192 1,
             Effect.make_sink (Sink.stdout_color_sink_mt level_enum.trace),
             Effect.make_sink
               (Sink.rotating_file_sink_mt "logs/rlog.log" (1024 * 1024 * 50) 5
                 level_enum.trace),
             Effect.make_logger (default_logger ({} : LogConfig)),
             Effect.set_default_logger (default_logger ({} : LogConfig))]
        from by decide)).1⟩

/-- C7 on the code: on a never-initialised facade, a `log_ex` call for the unbound key `K`
whose file sink cannot be built reaches `LOG_ERROR` with `get_logger()` null and applies `->`
to it; the call does not return to its caller. -/
theorem log_ex_creation_failure_before_init :
    Map.find "K" LogWrapper.fresh.m_ex_loggers = (none : Option Logger) ∧
    get_logger LogWrapper.fresh = none ∧
    log_ex "K" ⟨"main.cpp", 7, "module_A_work"⟩ level_enum.info "m" example_tm
        (some "Failed opening file") LogWrapper.fresh
      = Outcome.null_deref [] := by
  decide

/-- On a facade whose `get_logger` returns a logger, a failed creation is atomic and can be
retried: the failing `log_ex` call returns with the state unchanged after reporting the error
to the default logger only, and a later call for the same key whose sink can be built makes
one sink and one logger, binds the key to that logger and hands the record to it. -/
theorem log_ex_creation_failure_recoverable (s : LogWrapper) (d : Logger) (key : String)
    (loc : source_loc) (lvl : level_enum) (msg what : String) (tm tm2 : Tm)
    (hd : get_logger s = some d) (hk : Map.find key s.m_ex_loggers = none) :
    log_ex key loc lvl msg tm (some what) s =
      Outcome.returned s
        [Effect.log d LOG_ERROR_loc level_enum.err
          ("Failed to create extra logger for key \x27" ++ key ++ "\x27: " ++ what)] ∧
    run s [Op.log_ex key loc lvl msg tm (some what), Op.log_ex key loc lvl msg tm2 none] =
      Outcome.returned
        { s with m_ex_loggers := Map.assign key (extra_logger key tm2) s.m_ex_loggers }
        [Effect.log d LOG_ERROR_loc level_enum.err
          ("Failed to create extra logger for key \x27" ++ key ++ "\x27: " ++ what),
         Effect.make_sink (Sink.basic_file_sink_mt (file_path key tm2) true),
         Effect.make_logger (extra_logger key tm2),
         Effect.log (extra_logger key tm2) loc lvl msg] ∧
    Map.find key (Map.assign key (extra_logger key tm2) s.m_ex_loggers) =
      some (extra_logger key tm2) := by
  have h1 : log_ex key loc lvl msg tm (some what) s =
      Outcome.returned s
        [Effect.log d LOG_ERROR_loc level_enum.err
          ("Failed to create extra logger for key \x27" ++ key ++ "\x27: " ++ what)] := by
    rw [log_ex_failed key loc lvl msg tm what s hk]
    simp [LOG_ERROR, hd]
  refine ⟨h1, ?_, Map.find_assign_self _ _ _⟩
  simp [run, step, h1, log_ex_created key loc lvl msg tm2 s hk]

/-- C10, as stated, fails: in the time zone `Europe/Berlin` the instants 1729989000
(27 October 2024 00:30:00 UTC, summer time) and 1729992600 (one hour later, after the clocks
were set back) have the same local broken-down time 2024-10-27 02:30:00, so a first use of the
key `module_A_debug` at either instant gives the sink of the new extra logger the same path. -/
theorem same_key_two_creation_seconds_same_path :
    (1729989000 : Int) ≠ 1729992600 ∧
    localtime_berlin 1729989000 =
      { tm_sec := 0, tm_min := 30, tm_hour := 2, tm_mday := 27, tm_mon := 9, tm_year := 124 } ∧
    localtime_berlin 1729992600 =
      { tm_sec := 0, tm_min := 30, tm_hour := 2, tm_mday := 27, tm_mon := 9, tm_year := 124 } ∧
    log_ex "module_A_debug" ⟨"main.cpp", 7, "module_A_work"⟩ level_enum.info "m"
        (localtime_berlin 1729989000) none LogWrapper.fresh
      = Outcome.returned
          { LogWrapper.fresh with
            m_ex_loggers :=
              [("module_A_debug",
                extra_logger "module_A_debug" (localtime_berlin 1729989000))] }
          [Effect.make_sink
             (Sink.basic_file_sink_mt "logs/extra/module_A_debug_2024-10-27_02_30_00.log" true),
           Effect.make_logger (extra_logger "module_A_debug" (localtime_berlin 1729989000)),
           Effect.log (extra_logger "module_A_debug" (localtime_berlin 1729989000))
             ⟨"main.cpp", 7, "module_A_work"⟩ level_enum.info "m"] ∧
    log_ex "module_A_debug" ⟨"main.cpp", 7, "module_A_work"⟩ level_enum.info "m"
        (localtime_berlin 1729992600) none LogWrapper.fresh
      = Outcome.returned
          { LogWrapper.fresh with
            m_ex_loggers :=
              [("module_A_debug",
                extra_logger "module_A_debug" (localtime_berlin 1729992600))] }
          [Effect.make_sink
             (Sink.basic_file_sink_mt "logs/extra/module_A_debug_2024-10-27_02_30_00.log" true),
           Effect.make_logger (extra_logger "module_A_debug" (localtime_berlin 1729992600)),
           Effect.log (extra_logger "module_A_debug" (localtime_berlin 1729992600))
             ⟨"main.cpp", 7, "module_A_work"⟩ level_enum.info "m"] := by
  decide

/-- C10, amended. Extra-log file naming.  On the first use of a key, `log_ex` gives the sink
of the new extra logger the path `"logs/extra/" + key + "_" + YYYY + "-" + MM + "-" + DD + "_" +
HH + "_" + MM + "_" + SS + ".log"`, whose fields are the `04d` / `02d` renderings of
`tm_year + 1900`, `tm_mon + 1`, `tm_mday`, `tm_hour`, `tm_min` and `tm_sec` of the local
broken-down time read then; for a broken-down time in range these are the numbers padded with
zeros on the left, month, day, hour, minute and second to exactly 2 digits and the year to at
least 4 digits (exactly 4 up to the year 9999).  Two different keys, or two different local
broken-down times, never give the same path. -/
theorem extra_log_file_naming (key : String) (tm : Tm) :
    (∀ (s : LogWrapper) (loc : source_loc) (lvl : level_enum) (msg : String),
      Map.find key s.m_ex_loggers = none →
      log_ex key loc lvl msg tm none s =
        Outcome.returned
          { s with m_ex_loggers := Map.assign key (extra_logger key tm) s.m_ex_loggers }
          [Effect.make_sink (Sink.basic_file_sink_mt (file_path key tm) true),
           Effect.make_logger (extra_logger key tm),
           Effect.log (extra_logger key tm) loc lvl msg]) ∧
    (extra_logger key tm).sinks = [Sink.basic_file_sink_mt (file_path key tm) true] ∧
    file_path key tm =
      "logs/extra/" ++ key ++ "_" ++ fmt_0d 4 (tm.tm_year + 1900) ++ "-" ++
        fmt_0d 2 (tm.tm_mon + 1) ++ "-" ++ fmt_0d 2 tm.tm_mday ++ "_" ++ fmt_0d 2 tm.tm_hour ++
        "_" ++ fmt_0d 2 tm.tm_min ++ "_" ++ fmt_0d 2 tm.tm_sec ++ ".log" ∧
    (tm.in_range →
      file_path key tm =
        "logs/extra/" ++ key ++ "_" ++ zero_padded 4 (tm.tm_year + 1900).toNat ++ "-" ++
          zero_padded 2 (tm.tm_mon + 1).toNat ++ "-" ++ zero_padded 2 tm.tm_mday.toNat ++ "_" ++
          zero_padded 2 tm.tm_hour.toNat ++ "_" ++ zero_padded 2 tm.tm_min.toNat ++ "_" ++
          zero_padded 2 tm.tm_sec.toNat ++ ".log" ∧
      4 ≤ (zero_padded 4 (tm.tm_year + 1900).toNat).length ∧
      (tm.tm_year + 1900 ≤ 9999 → (zero_padded 4 (tm.tm_year + 1900).toNat).length = 4) ∧
      (zero_padded 2 (tm.tm_mon + 1).toNat).length = 2 ∧
      (zero_padded 2 tm.tm_mday.toNat).length = 2 ∧
      (zero_padded 2 tm.tm_hour.toNat).length = 2 ∧
      (zero_padded 2 tm.tm_min.toNat).length = 2 ∧
      (zero_padded 2 tm.tm_sec.toNat).length = 2) ∧
    (∀ (key2 : String) (tm2 : Tm), file_path key tm = file_path key2 tm2 →
      key = key2 ∧ tm = tm2) := by
  have hflat : file_path key tm =
      "logs/extra/" ++ key ++ "_" ++ fmt_0d 4 (tm.tm_year + 1900) ++ "-" ++
        fmt_0d 2 (tm.tm_mon + 1) ++ "-" ++ fmt_0d 2 tm.tm_mday ++ "_" ++ fmt_0d 2 tm.tm_hour ++
        "_" ++ fmt_0d 2 tm.tm_min ++ "_" ++ fmt_0d 2 tm.tm_sec ++ ".log" := by
    simp [file_path, file_date, String.ext_iff, String.data_append, List.append_assoc]
  refine ⟨?_, rfl, hflat, ?_, ?_⟩
  · intro s loc lvl msg hn
    exact log_ex_created key loc lvl msg tm s hn
  · intro hr
    obtain ⟨s0, s1, m0, m1, h0, h1, d0, d1, o0, o1, y0⟩ := hr
    refine ⟨?_, zero_padded_length_ge _ _, ?_, ?_, ?_, ?_, ?_, ?_⟩
    · rw [hflat, fmt_0d_eq_zero_padded 4 y0, fmt_0d_eq_zero_padded 2 (n := tm.tm_mon + 1),
        fmt_0d_eq_zero_padded 2 (n := tm.tm_mday), fmt_0d_eq_zero_padded 2 h0,
        fmt_0d_eq_zero_padded 2 m0, fmt_0d_eq_zero_padded 2 s0] <;> omega
    · intro y1
      exact zero_padded_length (e := 3) (by omega)
    · exact zero_padded_length (e := 1) (by omega)
    · exact zero_padded_length (e := 1) (by omega)
    · exact zero_padded_length (e := 1) (by omega)
    · exact zero_padded_length (e := 1) (by omega)
    · exact zero_padded_length (e := 1) (by omega)
  · intro key2 tm2 h
    exact file_path_injective h

theorem extra_log_file_naming_witness :
    example_tm.in_range ∧
    file_path "module_A_debug" example_tm =
      "logs/extra/" ++ "module_A_debug" ++ "_" ++
        zero_padded 4 (example_tm.tm_year + 1900).toNat ++ "-" ++
        zero_padded 2 (example_tm.tm_mon + 1).toNat ++ "-" ++
        zero_padded 2 example_tm.tm_mday.toNat ++ "_" ++
        zero_padded 2 example_tm.tm_hour.toNat ++ "_" ++
        zero_padded 2 example_tm.tm_min.toNat ++ "_" ++
        zero_padded 2 example_tm.tm_sec.toNat ++ ".log" ∧
    file_path "module_A_debug" example_tm =
      "logs/extra/module_A_debug_2024-01-02_03_04_05.log" :=
  ⟨by decide,
   ((extra_log_file_naming "module_A_debug" example_tm).2.2.2.1 (by decide)).1,
   by decide⟩

end SpdlogWrapper
